import Mathlib

/-!
# Canola CAN controller test firmware: register map, frame codec, driver

A shallow embedding of `canola_axi_slave.hpp`, `canola.h` and `canola.c`.

* `uint32_t` values are natural numbers below `2 ^ 32`, `uint8_t` values natural
  numbers below `2 ^ 8`; every place where the C code converts to one of these
  types is written `u32` or `u8` (reduction modulo the width).
* The memory-mapped registers are a state `Bus`: the word stored at each
  address together with the log of the accesses made so far.
* The base addresses `XPAR_CANOLA_AXI_SLAVE_n_BASEADDR` come from the generated
  platform header `xparameters.h`; they are the parameter `xparameters`.
-/

namespace Canola

/-! ## Register map (`canola_axi_slave.hpp`) -/

namespace CANOLA_AXI_SLAVE

def BASEADDR : Nat := 0x0
def STATUS_OFFSET : Nat := 0x0
def STATUS_RESET : Nat := 0x0
def STATUS_RX_MSG_VALID_OFFSET : Nat := 0
def STATUS_RX_MSG_VALID_WIDTH : Nat := 1
def STATUS_RX_MSG_VALID_RESET : Nat := 0x0
def STATUS_RX_MSG_VALID_MASK : Nat := 0x1
def STATUS_TX_BUSY_OFFSET : Nat := 1
def STATUS_TX_BUSY_WIDTH : Nat := 1
def STATUS_TX_BUSY_RESET : Nat := 0x0
def STATUS_TX_BUSY_MASK : Nat := 0x2
def STATUS_TX_DONE_OFFSET : Nat := 2
def STATUS_TX_DONE_WIDTH : Nat := 1
def STATUS_TX_DONE_RESET : Nat := 0x0
def STATUS_TX_DONE_MASK : Nat := 0x4
def STATUS_TX_FAILED_OFFSET : Nat := 3
def STATUS_TX_FAILED_WIDTH : Nat := 1
def STATUS_TX_FAILED_RESET : Nat := 0x0
def STATUS_TX_FAILED_MASK : Nat := 0x8
def STATUS_ERROR_STATE_OFFSET : Nat := 4
def STATUS_ERROR_STATE_WIDTH : Nat := 2
def STATUS_ERROR_STATE_RESET : Nat := 0x0
def STATUS_ERROR_STATE_MASK : Nat := 0x30
def CONTROL_OFFSET : Nat := 0x4
def CONTROL_RESET : Nat := 0x0
def CONTROL_TX_START_OFFSET : Nat := 0
def CONTROL_TX_START_WIDTH : Nat := 1
def CONTROL_TX_START_RESET : Nat := 0x0
def CONTROL_TX_START_MASK : Nat := 0x1
def CONFIG_OFFSET : Nat := 0x8
def CONFIG_RESET : Nat := 0x0
def CONFIG_TX_RETRANSMIT_EN_OFFSET : Nat := 0
def CONFIG_TX_RETRANSMIT_EN_WIDTH : Nat := 1
def CONFIG_TX_RETRANSMIT_EN_RESET : Nat := 0x0
def CONFIG_TX_RETRANSMIT_EN_MASK : Nat := 0x1
def CONFIG_BTL_TRIPLE_SAMPLING_EN_OFFSET : Nat := 1
def CONFIG_BTL_TRIPLE_SAMPLING_EN_WIDTH : Nat := 1
def CONFIG_BTL_TRIPLE_SAMPLING_EN_RESET : Nat := 0x0
def CONFIG_BTL_TRIPLE_SAMPLING_EN_MASK : Nat := 0x2
def BTL_PROP_SEG_OFFSET : Nat := 0x20
def BTL_PROP_SEG_RESET : Nat := 0x0
def BTL_PHASE_SEG1_OFFSET : Nat := 0x24
def BTL_PHASE_SEG1_RESET : Nat := 0x0
def BTL_PHASE_SEG2_OFFSET : Nat := 0x28
def BTL_PHASE_SEG2_RESET : Nat := 0x0
def BTL_SYNC_JUMP_WIDTH_OFFSET : Nat := 0x2c
def BTL_SYNC_JUMP_WIDTH_RESET : Nat := 0x0
def BTL_TIME_QUANTA_CLOCK_SCALE_OFFSET : Nat := 0x30
def BTL_TIME_QUANTA_CLOCK_SCALE_RESET : Nat := 0x0
def TRANSMIT_ERROR_COUNT_OFFSET : Nat := 0x34
def TRANSMIT_ERROR_COUNT_RESET : Nat := 0x0
def RECEIVE_ERROR_COUNT_OFFSET : Nat := 0x38
def RECEIVE_ERROR_COUNT_RESET : Nat := 0x0
def TX_MSG_SENT_COUNT_OFFSET : Nat := 0x3c
def TX_MSG_SENT_COUNT_RESET : Nat := 0x0
def TX_ACK_RECV_COUNT_OFFSET : Nat := 0x40
def TX_ACK_RECV_COUNT_RESET : Nat := 0x0
def TX_ARB_LOST_COUNT_OFFSET : Nat := 0x44
def TX_ARB_LOST_COUNT_RESET : Nat := 0x0
def TX_ERROR_COUNT_OFFSET : Nat := 0x48
def TX_ERROR_COUNT_RESET : Nat := 0x0
def RX_MSG_RECV_COUNT_OFFSET : Nat := 0x4c
def RX_MSG_RECV_COUNT_RESET : Nat := 0x0
def RX_CRC_ERROR_COUNT_OFFSET : Nat := 0x50
def RX_CRC_ERROR_COUNT_RESET : Nat := 0x0
def RX_FORM_ERROR_COUNT_OFFSET : Nat := 0x54
def RX_FORM_ERROR_COUNT_RESET : Nat := 0x0
def RX_STUFF_ERROR_COUNT_OFFSET : Nat := 0x58
def RX_STUFF_ERROR_COUNT_RESET : Nat := 0x0
def TX_MSG_ID_OFFSET : Nat := 0x5c
def TX_MSG_ID_RESET : Nat := 0x0
def TX_MSG_ID_EXT_ID_EN_OFFSET : Nat := 0
def TX_MSG_ID_EXT_ID_EN_WIDTH : Nat := 1
def TX_MSG_ID_EXT_ID_EN_RESET : Nat := 0x0
def TX_MSG_ID_EXT_ID_EN_MASK : Nat := 0x1
def TX_MSG_ID_RTR_EN_OFFSET : Nat := 1
def TX_MSG_ID_RTR_EN_WIDTH : Nat := 1
def TX_MSG_ID_RTR_EN_RESET : Nat := 0x0
def TX_MSG_ID_RTR_EN_MASK : Nat := 0x2
def TX_MSG_ID_ARB_ID_B_OFFSET : Nat := 2
def TX_MSG_ID_ARB_ID_B_WIDTH : Nat := 18
def TX_MSG_ID_ARB_ID_B_RESET : Nat := 0x0
def TX_MSG_ID_ARB_ID_B_MASK : Nat := 0xffffc
def TX_MSG_ID_ARB_ID_A_OFFSET : Nat := 20
def TX_MSG_ID_ARB_ID_A_WIDTH : Nat := 11
def TX_MSG_ID_ARB_ID_A_RESET : Nat := 0x0
def TX_MSG_ID_ARB_ID_A_MASK : Nat := 0x7ff00000
def TX_PAYLOAD_LENGTH_OFFSET : Nat := 0x60
def TX_PAYLOAD_LENGTH_RESET : Nat := 0x0
def TX_PAYLOAD_0_OFFSET : Nat := 0x64
def TX_PAYLOAD_0_RESET : Nat := 0x0
def TX_PAYLOAD_0_PAYLOAD_BYTE_0_OFFSET : Nat := 0
def TX_PAYLOAD_0_PAYLOAD_BYTE_0_WIDTH : Nat := 8
def TX_PAYLOAD_0_PAYLOAD_BYTE_0_RESET : Nat := 0x0
def TX_PAYLOAD_0_PAYLOAD_BYTE_0_MASK : Nat := 0xff
def TX_PAYLOAD_0_PAYLOAD_BYTE_1_OFFSET : Nat := 8
def TX_PAYLOAD_0_PAYLOAD_BYTE_1_WIDTH : Nat := 8
def TX_PAYLOAD_0_PAYLOAD_BYTE_1_RESET : Nat := 0x0
def TX_PAYLOAD_0_PAYLOAD_BYTE_1_MASK : Nat := 0xff00
def TX_PAYLOAD_0_PAYLOAD_BYTE_2_OFFSET : Nat := 16
def TX_PAYLOAD_0_PAYLOAD_BYTE_2_WIDTH : Nat := 8
def TX_PAYLOAD_0_PAYLOAD_BYTE_2_RESET : Nat := 0x0
def TX_PAYLOAD_0_PAYLOAD_BYTE_2_MASK : Nat := 0xff0000
def TX_PAYLOAD_0_PAYLOAD_BYTE_3_OFFSET : Nat := 24
def TX_PAYLOAD_0_PAYLOAD_BYTE_3_WIDTH : Nat := 8
def TX_PAYLOAD_0_PAYLOAD_BYTE_3_RESET : Nat := 0x0
def TX_PAYLOAD_0_PAYLOAD_BYTE_3_MASK : Nat := 0xff000000
def TX_PAYLOAD_1_OFFSET : Nat := 0x68
def TX_PAYLOAD_1_RESET : Nat := 0x0
def TX_PAYLOAD_1_PAYLOAD_BYTE_4_OFFSET : Nat := 0
def TX_PAYLOAD_1_PAYLOAD_BYTE_4_WIDTH : Nat := 8
def TX_PAYLOAD_1_PAYLOAD_BYTE_4_RESET : Nat := 0x0
def TX_PAYLOAD_1_PAYLOAD_BYTE_4_MASK : Nat := 0xff
def TX_PAYLOAD_1_PAYLOAD_BYTE_5_OFFSET : Nat := 8
def TX_PAYLOAD_1_PAYLOAD_BYTE_5_WIDTH : Nat := 8
def TX_PAYLOAD_1_PAYLOAD_BYTE_5_RESET : Nat := 0x0
def TX_PAYLOAD_1_PAYLOAD_BYTE_5_MASK : Nat := 0xff00
def TX_PAYLOAD_1_PAYLOAD_BYTE_6_OFFSET : Nat := 16
def TX_PAYLOAD_1_PAYLOAD_BYTE_6_WIDTH : Nat := 8
def TX_PAYLOAD_1_PAYLOAD_BYTE_6_RESET : Nat := 0x0
def TX_PAYLOAD_1_PAYLOAD_BYTE_6_MASK : Nat := 0xff0000
def TX_PAYLOAD_1_PAYLOAD_BYTE_7_OFFSET : Nat := 24
def TX_PAYLOAD_1_PAYLOAD_BYTE_7_WIDTH : Nat := 8
def TX_PAYLOAD_1_PAYLOAD_BYTE_7_RESET : Nat := 0x0
def TX_PAYLOAD_1_PAYLOAD_BYTE_7_MASK : Nat := 0xff000000
def RX_MSG_ID_OFFSET : Nat := 0x6c
def RX_MSG_ID_RESET : Nat := 0x0
def RX_MSG_ID_EXT_ID_EN_OFFSET : Nat := 0
def RX_MSG_ID_EXT_ID_EN_WIDTH : Nat := 1
def RX_MSG_ID_EXT_ID_EN_RESET : Nat := 0x0
def RX_MSG_ID_EXT_ID_EN_MASK : Nat := 0x1
def RX_MSG_ID_RTR_EN_OFFSET : Nat := 1
def RX_MSG_ID_RTR_EN_WIDTH : Nat := 1
def RX_MSG_ID_RTR_EN_RESET : Nat := 0x0
def RX_MSG_ID_RTR_EN_MASK : Nat := 0x2
def RX_MSG_ID_ARB_ID_B_OFFSET : Nat := 2
def RX_MSG_ID_ARB_ID_B_WIDTH : Nat := 18
def RX_MSG_ID_ARB_ID_B_RESET : Nat := 0x0
def RX_MSG_ID_ARB_ID_B_MASK : Nat := 0xffffc
def RX_MSG_ID_ARB_ID_A_OFFSET : Nat := 20
def RX_MSG_ID_ARB_ID_A_WIDTH : Nat := 11
def RX_MSG_ID_ARB_ID_A_RESET : Nat := 0x0
def RX_MSG_ID_ARB_ID_A_MASK : Nat := 0x7ff00000
def RX_PAYLOAD_LENGTH_OFFSET : Nat := 0x70
def RX_PAYLOAD_LENGTH_RESET : Nat := 0x0
def RX_PAYLOAD_0_OFFSET : Nat := 0x74
def RX_PAYLOAD_0_RESET : Nat := 0x0
def RX_PAYLOAD_0_PAYLOAD_BYTE_0_OFFSET : Nat := 0
def RX_PAYLOAD_0_PAYLOAD_BYTE_0_WIDTH : Nat := 8
def RX_PAYLOAD_0_PAYLOAD_BYTE_0_RESET : Nat := 0x0
def RX_PAYLOAD_0_PAYLOAD_BYTE_0_MASK : Nat := 0xff
def RX_PAYLOAD_0_PAYLOAD_BYTE_1_OFFSET : Nat := 8
def RX_PAYLOAD_0_PAYLOAD_BYTE_1_WIDTH : Nat := 8
def RX_PAYLOAD_0_PAYLOAD_BYTE_1_RESET : Nat := 0x0
def RX_PAYLOAD_0_PAYLOAD_BYTE_1_MASK : Nat := 0xff00
def RX_PAYLOAD_0_PAYLOAD_BYTE_2_OFFSET : Nat := 16
def RX_PAYLOAD_0_PAYLOAD_BYTE_2_WIDTH : Nat := 8
def RX_PAYLOAD_0_PAYLOAD_BYTE_2_RESET : Nat := 0x0
def RX_PAYLOAD_0_PAYLOAD_BYTE_2_MASK : Nat := 0xff0000
def RX_PAYLOAD_0_PAYLOAD_BYTE_3_OFFSET : Nat := 24
def RX_PAYLOAD_0_PAYLOAD_BYTE_3_WIDTH : Nat := 8
def RX_PAYLOAD_0_PAYLOAD_BYTE_3_RESET : Nat := 0x0
def RX_PAYLOAD_0_PAYLOAD_BYTE_3_MASK : Nat := 0xff000000
def RX_PAYLOAD_1_OFFSET : Nat := 0x78
def RX_PAYLOAD_1_RESET : Nat := 0x0
def RX_PAYLOAD_1_PAYLOAD_BYTE_4_OFFSET : Nat := 0
def RX_PAYLOAD_1_PAYLOAD_BYTE_4_WIDTH : Nat := 8
def RX_PAYLOAD_1_PAYLOAD_BYTE_4_RESET : Nat := 0x0
def RX_PAYLOAD_1_PAYLOAD_BYTE_4_MASK : Nat := 0xff
def RX_PAYLOAD_1_PAYLOAD_BYTE_5_OFFSET : Nat := 8
def RX_PAYLOAD_1_PAYLOAD_BYTE_5_WIDTH : Nat := 8
def RX_PAYLOAD_1_PAYLOAD_BYTE_5_RESET : Nat := 0x0
def RX_PAYLOAD_1_PAYLOAD_BYTE_5_MASK : Nat := 0xff00
def RX_PAYLOAD_1_PAYLOAD_BYTE_6_OFFSET : Nat := 16
def RX_PAYLOAD_1_PAYLOAD_BYTE_6_WIDTH : Nat := 8
def RX_PAYLOAD_1_PAYLOAD_BYTE_6_RESET : Nat := 0x0
def RX_PAYLOAD_1_PAYLOAD_BYTE_6_MASK : Nat := 0xff0000
def RX_PAYLOAD_1_PAYLOAD_BYTE_7_OFFSET : Nat := 24
def RX_PAYLOAD_1_PAYLOAD_BYTE_7_WIDTH : Nat := 8
def RX_PAYLOAD_1_PAYLOAD_BYTE_7_RESET : Nat := 0x0
def RX_PAYLOAD_1_PAYLOAD_BYTE_7_MASK : Nat := 0xff000000

end CANOLA_AXI_SLAVE

open CANOLA_AXI_SLAVE

/-! ## Machine integers -/

/-- Conversion to `uint32_t`. -/
def u32 (x : Nat) : Nat := x % 2 ^ 32

/-- Conversion to `uint8_t`. -/
def u8 (x : Nat) : Nat := x % 2 ^ 8

/-! ## `can_msg_t` (`canola.h`) -/

/-- The frame structure `can_msg_t`: two `uint32_t` identifiers, two flags,
an array of eight `uint8_t` and a `uint8_t` length. -/
@[ext]
structure can_msg_t where
  arb_id_a : Nat
  arb_id_b : Nat
  remote_frame : Bool
  ext_id : Bool
  payload : Fin 8 → Nat
  data_length : Nat

/-- The values a `can_msg_t` can hold: every field lies in the range of its C type. -/
def can_msg_t.in_range (m : can_msg_t) : Prop :=
  m.arb_id_a < 2 ^ 32 ∧ m.arb_id_b < 2 ^ 32 ∧ (∀ i : Fin 8, m.payload i < 2 ^ 8) ∧
    m.data_length < 2 ^ 8

instance (m : can_msg_t) : Decidable m.in_range := by
  unfold can_msg_t.in_range
  infer_instance

/-- An array of eight bytes given by its elements. -/
def bytes8 (b0 b1 b2 b3 b4 b5 b6 b7 : Nat) : Fin 8 → Nat :=
  fun i =>
    match i.val with
    | 0 => b0
    | 1 => b1
    | 2 => b2
    | 3 => b3
    | 4 => b4
    | 5 => b5
    | 6 => b6
    | _ => b7

/-! ## Register access -/

/-- One access on the register bus. -/
inductive BusOp where
  | rd (addr : Nat)
  | wr (addr : Nat) (val : Nat)
  deriving DecidableEq, Repr

/-- The register bus: the 32-bit word held at each address and the accesses made so far,
oldest first. -/
structure Bus where
  mem : Nat → Nat
  log : List BusOp

/-- Modelled from the spec: the platform primitive `Xil_Out32` of `xil_io.h`, "write a 32-bit
value at a given address". The word at `addr` becomes `val` and the write is logged. -/
def Xil_Out32 (addr val : Nat) (bus : Bus) : Bus :=
  { mem := fun a => if a = addr then val else bus.mem a
    log := bus.log ++ [BusOp.wr addr val] }

/-- Modelled from the spec: the platform primitive `Xil_In32` of `xil_io.h`, "read a 32-bit
value at a given address". Returns the word at `addr` and logs the read. -/
def Xil_In32 (addr : Nat) (bus : Bus) : Nat × Bus :=
  (bus.mem addr, { bus with log := bus.log ++ [BusOp.rd addr] })

/-- The base addresses of the four controllers, constants of `xparameters.h`. -/
structure xparameters where
  XPAR_CANOLA_AXI_SLAVE_0_BASEADDR : Nat
  XPAR_CANOLA_AXI_SLAVE_1_BASEADDR : Nat
  XPAR_CANOLA_AXI_SLAVE_2_BASEADDR : Nat
  XPAR_CANOLA_AXI_SLAVE_3_BASEADDR : Nat

/-! ## Driver (`canola.c`) -/

/-- The function `canola_get_base_addr`: a `switch` over the device number whose
initial value `0` is kept when no case applies. -/
def canola_get_base_addr (xp : xparameters) (canola_dev_id : Nat) : Nat :=
  match canola_dev_id with
  | 0 => xp.XPAR_CANOLA_AXI_SLAVE_0_BASEADDR
  | 1 => xp.XPAR_CANOLA_AXI_SLAVE_1_BASEADDR
  | 2 => xp.XPAR_CANOLA_AXI_SLAVE_2_BASEADDR
  | 3 => xp.XPAR_CANOLA_AXI_SLAVE_3_BASEADDR
  | _ => 0

/-- The value `canola_send_msg` computes in `canola_tx_msg_id_reg` (lines 91-98): both shifts
are `uint32_t` shifts, the flag bits are or-ed in afterwards. -/
def canola_tx_msg_id_reg (msg : can_msg_t) : Nat :=
  let reg := u32 (msg.arb_id_a <<< TX_MSG_ID_ARB_ID_A_OFFSET) |||
    u32 (msg.arb_id_b <<< TX_MSG_ID_ARB_ID_B_OFFSET)
  let reg := if msg.ext_id then reg ||| (0x1 <<< TX_MSG_ID_EXT_ID_EN_OFFSET) else reg
  let reg := if msg.remote_frame then reg ||| (0x1 <<< TX_MSG_ID_RTR_EN_OFFSET) else reg
  reg

/-- The value `canola_send_msg` computes in `canola_tx_payload_0_reg` (lines 104-107). The
bytes are promoted to `int`, shifted and or-ed, and the result is converted to `uint32_t`:
the bit pattern modulo `2 ^ 32`. -/
def canola_tx_payload_0_reg (msg : can_msg_t) : Nat :=
  u32 (msg.payload 0 ||| (msg.payload 1 <<< 8) ||| (msg.payload 2 <<< 16) |||
    (msg.payload 3 <<< 24))

/-- The value `canola_send_msg` computes in `canola_tx_payload_1_reg` (lines 109-112). -/
def canola_tx_payload_1_reg (msg : can_msg_t) : Nat :=
  u32 (msg.payload 4 ||| (msg.payload 5 <<< 8) ||| (msg.payload 6 <<< 16) |||
    (msg.payload 7 <<< 24))

/-- The function `canola_send_msg`: four frame registers, then the start bit. -/
def canola_send_msg (xp : xparameters) (canola_dev_id : Nat) (msg : can_msg_t) (bus : Bus) :
    Bus :=
  let canola_baseaddr := canola_get_base_addr xp canola_dev_id
  let bus := Xil_Out32 (canola_baseaddr + TX_MSG_ID_OFFSET) (canola_tx_msg_id_reg msg) bus
  let bus := Xil_Out32 (canola_baseaddr + TX_PAYLOAD_0_OFFSET) (canola_tx_payload_0_reg msg) bus
  let bus := Xil_Out32 (canola_baseaddr + TX_PAYLOAD_1_OFFSET) (canola_tx_payload_1_reg msg) bus
  let bus := Xil_Out32 (canola_baseaddr + TX_PAYLOAD_LENGTH_OFFSET) msg.data_length bus
  Xil_Out32 (canola_baseaddr + CONTROL_OFFSET) (0x1 <<< CONTROL_TX_START_OFFSET) bus

/-- The loop `for (unsigned int i = 0; i < 8; i++)` around a body that updates a state. -/
def for8 {σ : Type} (body : Fin 8 → σ → σ) (s : σ) : σ :=
  (List.finRange 8).foldl (fun s i => body i s) s

/-- The loop of lines 148-150: `for (i = 0; i < 8; i++) msg.payload[i] = 0`. -/
def clear_payload (payload : Fin 8 → Nat) : Fin 8 → Nat :=
  for8 (fun i p => Function.update p i 0) payload

/-- The loop of lines 162-166: `for (i = 0; i < 8; i++) if (i >= msg.data_length)
msg.payload[i] = 0`. -/
def clear_unused_payload (data_length : Nat) (payload : Fin 8 → Nat) : Fin 8 → Nat :=
  for8 (fun i p => if i.val ≥ data_length then Function.update p i 0 else p) payload

/-- Lines 134-169 of `canola_get_msg`: the frame built from the four register values read.
The argument `msg` is the indeterminate initial content of the local of that name (line
127); the fields are assigned one by one and the payload is stored into `msg.payload`. -/
def canola_get_msg_decode (msg : can_msg_t) (rx_msg_id_reg rx_payload_len_reg
    rx_payload_0_reg rx_payload_1_reg : Nat) : can_msg_t :=
  let arb_id_a := (rx_msg_id_reg &&& RX_MSG_ID_ARB_ID_A_MASK) >>> RX_MSG_ID_ARB_ID_A_OFFSET
  let ext_id : Bool :=
    decide (((rx_msg_id_reg &&& RX_MSG_ID_EXT_ID_EN_MASK) >>> RX_MSG_ID_EXT_ID_EN_OFFSET) = 1)
  let arb_id_b :=
    if ext_id then (rx_msg_id_reg &&& RX_MSG_ID_ARB_ID_B_MASK) >>> RX_MSG_ID_ARB_ID_B_OFFSET
    else 0
  let data_length := u8 rx_payload_len_reg
  let remote_frame : Bool :=
    decide (((rx_msg_id_reg &&& RX_MSG_ID_RTR_EN_MASK) >>> RX_MSG_ID_RTR_EN_OFFSET) = 1)
  let payload : Fin 8 → Nat :=
    if remote_frame then clear_payload msg.payload
    else
      let p := Function.update msg.payload 0
        (u8 ((rx_payload_0_reg &&& RX_PAYLOAD_0_PAYLOAD_BYTE_0_MASK) >>>
          RX_PAYLOAD_0_PAYLOAD_BYTE_0_OFFSET))
      let p := Function.update p 1
        (u8 ((rx_payload_0_reg &&& RX_PAYLOAD_0_PAYLOAD_BYTE_1_MASK) >>>
          RX_PAYLOAD_0_PAYLOAD_BYTE_1_OFFSET))
      let p := Function.update p 2
        (u8 ((rx_payload_0_reg &&& RX_PAYLOAD_0_PAYLOAD_BYTE_2_MASK) >>>
          RX_PAYLOAD_0_PAYLOAD_BYTE_2_OFFSET))
      let p := Function.update p 3
        (u8 ((rx_payload_0_reg &&& RX_PAYLOAD_0_PAYLOAD_BYTE_3_MASK) >>>
          RX_PAYLOAD_0_PAYLOAD_BYTE_3_OFFSET))
      let p := Function.update p 4
        (u8 ((rx_payload_1_reg &&& RX_PAYLOAD_1_PAYLOAD_BYTE_4_MASK) >>>
          RX_PAYLOAD_1_PAYLOAD_BYTE_4_OFFSET))
      let p := Function.update p 5
        (u8 ((rx_payload_1_reg &&& RX_PAYLOAD_1_PAYLOAD_BYTE_5_MASK) >>>
          RX_PAYLOAD_1_PAYLOAD_BYTE_5_OFFSET))
      let p := Function.update p 6
        (u8 ((rx_payload_1_reg &&& RX_PAYLOAD_1_PAYLOAD_BYTE_6_MASK) >>>
          RX_PAYLOAD_1_PAYLOAD_BYTE_6_OFFSET))
      let p := Function.update p 7
        (u8 ((rx_payload_1_reg &&& RX_PAYLOAD_1_PAYLOAD_BYTE_7_MASK) >>>
          RX_PAYLOAD_1_PAYLOAD_BYTE_7_OFFSET))
      clear_unused_payload data_length p
  { arb_id_a := arb_id_a
    arb_id_b := arb_id_b
    remote_frame := remote_frame
    ext_id := ext_id
    payload := payload
    data_length := data_length }

/-- The function `canola_get_msg`: four register reads (message-ID, length, payload 0,
payload 1), then the decoding of lines 134-169 into the local `msg`, whose indeterminate
initial content is the argument `msg`. -/
def canola_get_msg (xp : xparameters) (canola_dev_id : Nat) (msg : can_msg_t) (bus : Bus) :
    can_msg_t × Bus :=
  let canola_baseaddr := canola_get_base_addr xp canola_dev_id
  let r0 := Xil_In32 (canola_baseaddr + RX_MSG_ID_OFFSET) bus
  let r1 := Xil_In32 (canola_baseaddr + RX_PAYLOAD_LENGTH_OFFSET) r0.2
  let r2 := Xil_In32 (canola_baseaddr + RX_PAYLOAD_0_OFFSET) r1.2
  let r3 := Xil_In32 (canola_baseaddr + RX_PAYLOAD_1_OFFSET) r2.2
  (canola_get_msg_decode msg r0.1 r1.1 r2.1 r3.1, r3.2)

/-- A line printed by `canola_compare_messages`, with the values it formats. -/
inductive Mismatch where
  | arb_id_a (x y : Nat)
  | ext_id
  | arb_id_b (x y : Nat)
  | rtr
  | dlc (x y : Nat)
  | payload (i x y : Nat)
  deriving DecidableEq, Repr

/-- One iteration of a loop whose body is `if (c) { ...; return x; }`: a value returned by an
earlier iteration is kept, otherwise `x` is returned when `c` holds. -/
def return_if {α : Type} (c : Prop) [Decidable c] (x : α) (r : Option α) : Option α :=
  match r with
  | some y => some y
  | none => if c then some x else none

/-- The payload loop of `canola_compare_messages` (lines 203-208): the first index `i` with
`i < msg1.data_length && msg1.payload[i] != msg2.payload[i]` prints and returns. -/
def compare_payload (msg1 msg2 : can_msg_t) : Option Mismatch :=
  for8
    (fun i r =>
      return_if (i.val < msg1.data_length ∧ msg1.payload i ≠ msg2.payload i)
        (Mismatch.payload i.val (msg1.payload i) (msg2.payload i)) r)
    none

/-- The function `canola_compare_messages`: the returned flag and the lines printed. -/
def canola_compare_messages (msg1 msg2 : can_msg_t) : Bool × List Mismatch :=
  if msg1.arb_id_a ≠ msg2.arb_id_a then
    (false, [Mismatch.arb_id_a msg1.arb_id_a msg2.arb_id_a])
  else if msg1.ext_id ≠ msg2.ext_id then
    (false, [Mismatch.ext_id])
  else if msg1.ext_id = true ∧ msg1.arb_id_b ≠ msg2.arb_id_b then
    (false, [Mismatch.arb_id_b msg1.arb_id_b msg2.arb_id_b])
  else if msg1.remote_frame ≠ msg2.remote_frame then
    (false, [Mismatch.rtr])
  else if msg1.data_length ≠ msg2.data_length then
    (false, [Mismatch.dlc msg1.data_length msg2.data_length])
  else if msg1.remote_frame = false then
    match compare_payload msg1 msg2 with
    | some line => (false, [line])
    | none => (true, [])
  else
    (true, [])

/-- The function `canola_print_status_regs`: the status register and the ten statistics
counters are read in the order of the source and printed; the result is the list of the
values printed and the bus. -/
def canola_print_status_regs (xp : xparameters) (canola_dev_id : Nat) (bus : Bus) :
    List Nat × Bus :=
  let canola_baseaddr := canola_get_base_addr xp canola_dev_id
  let r0 := Xil_In32 (canola_baseaddr + STATUS_OFFSET) bus
  let r1 := Xil_In32 (canola_baseaddr + TRANSMIT_ERROR_COUNT_OFFSET) r0.2
  let r2 := Xil_In32 (canola_baseaddr + RECEIVE_ERROR_COUNT_OFFSET) r1.2
  let r3 := Xil_In32 (canola_baseaddr + TX_MSG_SENT_COUNT_OFFSET) r2.2
  let r4 := Xil_In32 (canola_baseaddr + TX_ACK_RECV_COUNT_OFFSET) r3.2
  let r5 := Xil_In32 (canola_baseaddr + TX_ARB_LOST_COUNT_OFFSET) r4.2
  let r6 := Xil_In32 (canola_baseaddr + TX_ERROR_COUNT_OFFSET) r5.2
  let r7 := Xil_In32 (canola_baseaddr + RX_MSG_RECV_COUNT_OFFSET) r6.2
  let r8 := Xil_In32 (canola_baseaddr + RX_CRC_ERROR_COUNT_OFFSET) r7.2
  let r9 := Xil_In32 (canola_baseaddr + RX_FORM_ERROR_COUNT_OFFSET) r8.2
  let r10 := Xil_In32 (canola_baseaddr + RX_STUFF_ERROR_COUNT_OFFSET) r9.2
  ([r0.1, r1.1, r2.1, r3.1, r4.1, r5.1, r6.1, r7.1, r8.1, r9.1, r10.1], r10.2)

/-- The function `canola_init`: one write of the time-quantum clock scale. -/
def canola_init (xp : xparameters) (canola_dev_id : Nat) (bus : Bus) : Bus :=
  let canola_baseaddr := canola_get_base_addr xp canola_dev_id
  Xil_Out32 (canola_baseaddr + BTL_TIME_QUANTA_CLOCK_SCALE_OFFSET) 9 bus

/-- The function `canola_is_busy`: one read of the status register, tested against the
TX_BUSY mask. -/
def canola_is_busy (xp : xparameters) (canola_dev_id : Nat) (bus : Bus) : Bool × Bus :=
  let canola_baseaddr := canola_get_base_addr xp canola_dev_id
  let r := Xil_In32 (canola_baseaddr + STATUS_OFFSET) bus
  (if (r.1 &&& STATUS_TX_BUSY_MASK) = 0 then false else true, r.2)

/-- A loop `for (unsigned int i = 0; i < n; i++)` around a body that updates a state. -/
def for_n {σ : Type} (n : Nat) (body : Nat → σ → σ) (s : σ) : σ :=
  (List.range n).foldl (fun s i => body i s) s

/-- The store `payload[i] = v` into the array of eight bytes. -/
def payload_store (payload : Fin 8 → Nat) (i v : Nat) : Fin 8 → Nat :=
  fun j => if j.val = i then v else payload j

/-- The function `canola_generate_rand_msg`. The value `rand k` is what the `k`-th call of
`rand()` in this invocation returns (calls are numbered from 0; a frame that is not a remote
request makes one call in every iteration of the loop, a remote request none), and `msg_out`
is the indeterminate initial content of the local of that name. The loop runs over the
indices below `data_length` only. -/
def canola_generate_rand_msg (rand : Nat → Nat) (msg_out : can_msg_t) : can_msg_t :=
  let arb_id_a := u32 (rand 0 % 2048)
  let arb_id_b := u32 (rand 1 % 262144)
  let ext_id : Bool := decide (rand 2 % 2 = 1)
  let remote_frame : Bool := decide (rand 3 % 2 = 1)
  let data_length := u8 (rand 4 % 9)
  let payload :=
    for_n data_length
      (fun i p =>
        if i ≥ data_length ∨ remote_frame = true then payload_store p i 0
        else payload_store p i (u8 (rand (5 + i) % 256)))
      msg_out.payload
  { arb_id_a := arb_id_a
    arb_id_b := arb_id_b
    remote_frame := remote_frame
    ext_id := ext_id
    payload := payload
    data_length := data_length }

/-! ## Notification flags (`interrupt.c`) -/

/-- The flag tables `got_rx_msg`, `got_tx_done` and `got_gpio_event`. -/
@[ext]
structure irq_flags where
  got_rx_msg : Fin 4 → Nat
  got_tx_done : Fin 4 → Nat
  got_gpio_event : Nat

/-- The initial content of the flag tables (lines 34-36). -/
def irq_flags_init : irq_flags :=
  { got_rx_msg := fun _ => 0
    got_tx_done := fun _ => 0
    got_gpio_event := 0 }

/-- The callback `IrqRxValidHandler`; `data` is the device number its argument points to. -/
def IrqRxValidHandler (data : Nat) (flags : irq_flags) : irq_flags :=
  if h : data < 4 then
    { flags with got_rx_msg := Function.update flags.got_rx_msg ⟨data, h⟩ 1 }
  else flags

/-- The callback `IrqTxDoneHandler`; `data` is the device number its argument points to. -/
def IrqTxDoneHandler (data : Nat) (flags : irq_flags) : irq_flags :=
  if h : data < 4 then
    { flags with got_tx_done := Function.update flags.got_tx_done ⟨data, h⟩ 1 }
  else flags

/-! ## Round-robin test (`canola_tests.c`) -/

/-- The loop `for (unsigned int i = 0; i < 4; i++)` around a body that updates a state. -/
def for4 {σ : Type} (body : Fin 4 → σ → σ) (s : σ) : σ :=
  (List.finRange 4).foldl (fun s i => body i s) s

/-- The read `a[i]` of a table of four flags with an `unsigned int` index; the test only
uses indices below 4. -/
def flag_read (a : Fin 4 → Nat) (i : Nat) : Nat :=
  if h : i < 4 then a ⟨i, h⟩ else 0

/-- The loop "Clear IRQ flags" (lines 257-260). -/
def clear_irq_flags (flags : irq_flags) : irq_flags :=
  for4
    (fun i f =>
      { f with
        got_tx_done := Function.update f.got_tx_done i 0
        got_rx_msg := Function.update f.got_rx_msg i 0 })
    flags

/-- The `unsigned int` locals of `canola_sequence_send_test` that live across rounds. -/
structure sequence_counters where
  can_ctrl_num : Nat
  tx_done_count : Nat
  tx_not_done_count : Nat
  rx_msg_count : Nat
  rx_msg_ok_count : Nat
  rx_msg_not_ok_count : Nat
  success_count : Nat
  fail_count : Nat
  msg_sent_count : Nat
  deriving DecidableEq, Repr

/-- The initial values of the locals (lines 174-182). -/
def sequence_counters_init : sequence_counters :=
  { can_ctrl_num := 0
    tx_done_count := 0
    tx_not_done_count := 0
    rx_msg_count := 0
    rx_msg_ok_count := 0
    rx_msg_not_ok_count := 0
    success_count := 0
    fail_count := 0
    msg_sent_count := 0 }

/-- The state of one round between its checks: the flag `test_ok`, the locals and the bus. -/
structure round_state where
  test_ok : Bool
  counters : sequence_counters
  bus : Bus

/-- The check of the transmitter (lines 206-212). -/
def check_transmitter (flags : irq_flags) (s : round_state) : round_state :=
  if flag_read flags.got_tx_done s.counters.can_ctrl_num = 1 then
    { s with counters := { s.counters with tx_done_count := u32 (s.counters.tx_done_count + 1) } }
  else
    { s with
      counters := { s.counters with
        tx_not_done_count := u32 (s.counters.tx_not_done_count + 1) }
      test_ok := false }

/-- The body of the loop over the receivers (lines 216-244), for the index `i`; `stale i` is
the indeterminate initial content of the local `msg` of `canola_get_msg` in the call for
device `i`. -/
def check_receiver (xp : xparameters) (msg_out : can_msg_t) (flags : irq_flags)
    (stale : Fin 4 → can_msg_t) (i : Fin 4) (s : round_state) : round_state :=
  if i.val = 2 then s
  else if i.val = s.counters.can_ctrl_num then s
  else if flags.got_rx_msg i = 0 then { s with test_ok := false }
  else
    let r := canola_get_msg xp i.val (stale i) s.bus
    if (canola_compare_messages msg_out r.1).1 = false then
      { test_ok := false
        counters := { s.counters with
          rx_msg_not_ok_count := u32 (s.counters.rx_msg_not_ok_count + 1) }
        bus := r.2 }
    else
      { s with
        counters := { s.counters with rx_msg_ok_count := u32 (s.counters.rx_msg_ok_count + 1) }
        bus := r.2 }

/-- The periodic dump of the statistics (lines 247-254). -/
def dump_statistics (xp : xparameters) (s : round_state) : round_state :=
  let msg_sent_count := u32 (s.counters.msg_sent_count + 1)
  if msg_sent_count ≥ 10000 then
    let b0 := (canola_print_status_regs xp 0 s.bus).2
    let b1 := (canola_print_status_regs xp 1 b0).2
    let b3 := (canola_print_status_regs xp 3 b1).2
    { s with
      counters := { s.counters with msg_sent_count := 0 }
      bus := b3 }
  else { s with counters := { s.counters with msg_sent_count := msg_sent_count } }

/-- The tally of the round (lines 262-265). -/
def tally (s : round_state) : sequence_counters :=
  if s.test_ok = true then
    { s.counters with success_count := u32 (s.counters.success_count + 1) }
  else { s.counters with fail_count := u32 (s.counters.fail_count + 1) }

/-- The advance of the transmitter index (lines 267-271). -/
def advance_can_ctrl_num (can_ctrl_num : Nat) : Nat :=
  let n := u32 (can_ctrl_num + 1)
  let n := if n = 2 then u32 (n + 1) else n
  if n = 4 then 0 else n

/-- One round of `canola_sequence_send_test` from its check point (line 205) to the end of
the loop body. The frame `msg_out` is the one generated and sent in lines 199-200; `flags`
and `bus` are the flag tables and the registers as the interrupt callbacks and the hardware
have left them when the sleep of line 203 ends; `stale i` is the indeterminate initial
content of the local of `canola_get_msg` in the call for device `i`. The lines printed are
left out. -/
def sequence_round (xp : xparameters) (msg_out : can_msg_t) (flags : irq_flags) (bus : Bus)
    (stale : Fin 4 → can_msg_t) (c : sequence_counters) :
    sequence_counters × irq_flags × Bus :=
  let s : round_state := { test_ok := true, counters := c, bus := bus }
  let s := check_transmitter flags s
  let s := for4 (check_receiver xp msg_out flags stale) s
  let s := dump_statistics xp s
  let flags := clear_irq_flags flags
  let c := tally s
  ({ c with can_ctrl_num := advance_can_ctrl_num c.can_ctrl_num }, flags, s.bus)

/-- What a round finds at its check point: the frame sent, the flag tables, the registers
and the stale content of the local of `canola_get_msg` in each of its calls. -/
structure round_input where
  msg_out : can_msg_t
  flags : irq_flags
  bus : Bus
  stale : Fin 4 → can_msg_t

/-- The locals after the rounds whose check points found `inputs`, first round first. -/
def run_rounds (xp : xparameters) (inputs : List round_input) (c : sequence_counters) :
    sequence_counters :=
  inputs.foldl (fun c r => (sequence_round xp r.msg_out r.flags r.bus r.stale c).1) c

/-- The values printed after the loop of `canola_sequence_send_test` (lines 276-282), in the
order of the source. -/
def sequence_report (c : sequence_counters) : List Nat :=
  [c.tx_done_count, c.tx_not_done_count, c.rx_msg_count, c.rx_msg_ok_count,
    c.rx_msg_not_ok_count, c.success_count, c.fail_count]

/-! ## Register map as a table -/

/-- A bitfield of the register map: its `_OFFSET`, `_WIDTH` and `_MASK` constants. -/
structure bitfield where
  offset : Nat
  width : Nat
  mask : Nat
  deriving DecidableEq, Repr

/-- Every bitfield declared in `canola_axi_slave.hpp`, in the order of the header: five of
STATUS, one of CONTROL, two of CONFIG, four each of TX_MSG_ID, TX_PAYLOAD_0, TX_PAYLOAD_1,
RX_MSG_ID, RX_PAYLOAD_0 and RX_PAYLOAD_1. -/
def bitfields : List bitfield :=
  [
    ⟨STATUS_RX_MSG_VALID_OFFSET, STATUS_RX_MSG_VALID_WIDTH, STATUS_RX_MSG_VALID_MASK⟩,
    ⟨STATUS_TX_BUSY_OFFSET, STATUS_TX_BUSY_WIDTH, STATUS_TX_BUSY_MASK⟩,
    ⟨STATUS_TX_DONE_OFFSET, STATUS_TX_DONE_WIDTH, STATUS_TX_DONE_MASK⟩,
    ⟨STATUS_TX_FAILED_OFFSET, STATUS_TX_FAILED_WIDTH, STATUS_TX_FAILED_MASK⟩,
    ⟨STATUS_ERROR_STATE_OFFSET, STATUS_ERROR_STATE_WIDTH, STATUS_ERROR_STATE_MASK⟩,
    ⟨CONTROL_TX_START_OFFSET, CONTROL_TX_START_WIDTH, CONTROL_TX_START_MASK⟩,
    ⟨CONFIG_TX_RETRANSMIT_EN_OFFSET, CONFIG_TX_RETRANSMIT_EN_WIDTH, CONFIG_TX_RETRANSMIT_EN_MASK⟩,
    ⟨CONFIG_BTL_TRIPLE_SAMPLING_EN_OFFSET, CONFIG_BTL_TRIPLE_SAMPLING_EN_WIDTH, CONFIG_BTL_TRIPLE_SAMPLING_EN_MASK⟩,
    ⟨TX_MSG_ID_EXT_ID_EN_OFFSET, TX_MSG_ID_EXT_ID_EN_WIDTH, TX_MSG_ID_EXT_ID_EN_MASK⟩,
    ⟨TX_MSG_ID_RTR_EN_OFFSET, TX_MSG_ID_RTR_EN_WIDTH, TX_MSG_ID_RTR_EN_MASK⟩,
    ⟨TX_MSG_ID_ARB_ID_B_OFFSET, TX_MSG_ID_ARB_ID_B_WIDTH, TX_MSG_ID_ARB_ID_B_MASK⟩,
    ⟨TX_MSG_ID_ARB_ID_A_OFFSET, TX_MSG_ID_ARB_ID_A_WIDTH, TX_MSG_ID_ARB_ID_A_MASK⟩,
    ⟨TX_PAYLOAD_0_PAYLOAD_BYTE_0_OFFSET, TX_PAYLOAD_0_PAYLOAD_BYTE_0_WIDTH, TX_PAYLOAD_0_PAYLOAD_BYTE_0_MASK⟩,
    ⟨TX_PAYLOAD_0_PAYLOAD_BYTE_1_OFFSET, TX_PAYLOAD_0_PAYLOAD_BYTE_1_WIDTH, TX_PAYLOAD_0_PAYLOAD_BYTE_1_MASK⟩,
    ⟨TX_PAYLOAD_0_PAYLOAD_BYTE_2_OFFSET, TX_PAYLOAD_0_PAYLOAD_BYTE_2_WIDTH, TX_PAYLOAD_0_PAYLOAD_BYTE_2_MASK⟩,
    ⟨TX_PAYLOAD_0_PAYLOAD_BYTE_3_OFFSET, TX_PAYLOAD_0_PAYLOAD_BYTE_3_WIDTH, TX_PAYLOAD_0_PAYLOAD_BYTE_3_MASK⟩,
    ⟨TX_PAYLOAD_1_PAYLOAD_BYTE_4_OFFSET, TX_PAYLOAD_1_PAYLOAD_BYTE_4_WIDTH, TX_PAYLOAD_1_PAYLOAD_BYTE_4_MASK⟩,
    ⟨TX_PAYLOAD_1_PAYLOAD_BYTE_5_OFFSET, TX_PAYLOAD_1_PAYLOAD_BYTE_5_WIDTH, TX_PAYLOAD_1_PAYLOAD_BYTE_5_MASK⟩,
    ⟨TX_PAYLOAD_1_PAYLOAD_BYTE_6_OFFSET, TX_PAYLOAD_1_PAYLOAD_BYTE_6_WIDTH, TX_PAYLOAD_1_PAYLOAD_BYTE_6_MASK⟩,
    ⟨TX_PAYLOAD_1_PAYLOAD_BYTE_7_OFFSET, TX_PAYLOAD_1_PAYLOAD_BYTE_7_WIDTH, TX_PAYLOAD_1_PAYLOAD_BYTE_7_MASK⟩,
    ⟨RX_MSG_ID_EXT_ID_EN_OFFSET, RX_MSG_ID_EXT_ID_EN_WIDTH, RX_MSG_ID_EXT_ID_EN_MASK⟩,
    ⟨RX_MSG_ID_RTR_EN_OFFSET, RX_MSG_ID_RTR_EN_WIDTH, RX_MSG_ID_RTR_EN_MASK⟩,
    ⟨RX_MSG_ID_ARB_ID_B_OFFSET, RX_MSG_ID_ARB_ID_B_WIDTH, RX_MSG_ID_ARB_ID_B_MASK⟩,
    ⟨RX_MSG_ID_ARB_ID_A_OFFSET, RX_MSG_ID_ARB_ID_A_WIDTH, RX_MSG_ID_ARB_ID_A_MASK⟩,
    ⟨RX_PAYLOAD_0_PAYLOAD_BYTE_0_OFFSET, RX_PAYLOAD_0_PAYLOAD_BYTE_0_WIDTH, RX_PAYLOAD_0_PAYLOAD_BYTE_0_MASK⟩,
    ⟨RX_PAYLOAD_0_PAYLOAD_BYTE_1_OFFSET, RX_PAYLOAD_0_PAYLOAD_BYTE_1_WIDTH, RX_PAYLOAD_0_PAYLOAD_BYTE_1_MASK⟩,
    ⟨RX_PAYLOAD_0_PAYLOAD_BYTE_2_OFFSET, RX_PAYLOAD_0_PAYLOAD_BYTE_2_WIDTH, RX_PAYLOAD_0_PAYLOAD_BYTE_2_MASK⟩,
    ⟨RX_PAYLOAD_0_PAYLOAD_BYTE_3_OFFSET, RX_PAYLOAD_0_PAYLOAD_BYTE_3_WIDTH, RX_PAYLOAD_0_PAYLOAD_BYTE_3_MASK⟩,
    ⟨RX_PAYLOAD_1_PAYLOAD_BYTE_4_OFFSET, RX_PAYLOAD_1_PAYLOAD_BYTE_4_WIDTH, RX_PAYLOAD_1_PAYLOAD_BYTE_4_MASK⟩,
    ⟨RX_PAYLOAD_1_PAYLOAD_BYTE_5_OFFSET, RX_PAYLOAD_1_PAYLOAD_BYTE_5_WIDTH, RX_PAYLOAD_1_PAYLOAD_BYTE_5_MASK⟩,
    ⟨RX_PAYLOAD_1_PAYLOAD_BYTE_6_OFFSET, RX_PAYLOAD_1_PAYLOAD_BYTE_6_WIDTH, RX_PAYLOAD_1_PAYLOAD_BYTE_6_MASK⟩,
    ⟨RX_PAYLOAD_1_PAYLOAD_BYTE_7_OFFSET, RX_PAYLOAD_1_PAYLOAD_BYTE_7_WIDTH, RX_PAYLOAD_1_PAYLOAD_BYTE_7_MASK⟩]

/-! ## Specification-side definitions -/

/-- The normalisation of the round-trip property, in the words of the specification: the
identifiers, flags and length are kept, the extension identifier is zero when the frame is
not extended, the payload is zero when the frame is a remote request, and otherwise every
byte at an index at or beyond the length is zero. -/
def norm (f : can_msg_t) : can_msg_t :=
  { arb_id_a := f.arb_id_a
    arb_id_b := if f.ext_id then f.arb_id_b else 0
    remote_frame := f.remote_frame
    ext_id := f.ext_id
    payload := fun i =>
      if f.remote_frame then 0 else if f.data_length ≤ i.val then 0 else f.payload i
    data_length := f.data_length }

/-- The CanFrame invariant of the specification: length at most eight, no extension
identifier without the extended flag, no payload in a remote request, zero padding beyond
the length. -/
def CanFrame_invariant (m : can_msg_t) : Prop :=
  m.data_length ≤ 8 ∧ (m.ext_id = false → m.arb_id_b = 0) ∧
    (m.remote_frame = true → ∀ i : Fin 8, m.payload i = 0) ∧
    (∀ i : Fin 8, m.data_length ≤ i.val → m.payload i = 0)

instance (m : can_msg_t) : Decidable (CanFrame_invariant m) := by
  unfold CanFrame_invariant
  infer_instance

/-! ## Concrete inputs -/

/-- Base addresses of a sample platform. -/
def xp_sample : xparameters :=
  { XPAR_CANOLA_AXI_SLAVE_0_BASEADDR := 0x43C00000
    XPAR_CANOLA_AXI_SLAVE_1_BASEADDR := 0x43C10000
    XPAR_CANOLA_AXI_SLAVE_2_BASEADDR := 0x43C20000
    XPAR_CANOLA_AXI_SLAVE_3_BASEADDR := 0x43C30000 }

/-- A bus whose registers all read zero, with no access made yet. -/
def bus_reset : Bus :=
  { mem := fun _ => 0
    log := [] }

/-- A bus on which the RX frame registers of device `rx` hold what the TX frame registers
of device `tx` hold on `src`: a frame carried over unchanged. -/
def bus_carry (xp : xparameters) (tx rx : Nat) (src : Bus) : Bus :=
  { mem := fun a =>
      if a = canola_get_base_addr xp rx + RX_MSG_ID_OFFSET then
        src.mem (canola_get_base_addr xp tx + TX_MSG_ID_OFFSET)
      else if a = canola_get_base_addr xp rx + RX_PAYLOAD_LENGTH_OFFSET then
        src.mem (canola_get_base_addr xp tx + TX_PAYLOAD_LENGTH_OFFSET)
      else if a = canola_get_base_addr xp rx + RX_PAYLOAD_0_OFFSET then
        src.mem (canola_get_base_addr xp tx + TX_PAYLOAD_0_OFFSET)
      else if a = canola_get_base_addr xp rx + RX_PAYLOAD_1_OFFSET then
        src.mem (canola_get_base_addr xp tx + TX_PAYLOAD_1_OFFSET)
      else src.mem a
    log := src.log }

/-- The frame `msg_out_0` of `canola_manual_test`. -/
def msg_out_0 : can_msg_t :=
  { arb_id_a := 0
    arb_id_b := 0xABC
    remote_frame := false
    ext_id := true
    payload := bytes8 0x11 0x22 0x33 0x44 0x55 0x66 0x77 0x88
    data_length := 8 }

/-- The frame `msg_out_0` with payload byte 3 changed from `0x44` to `0x40`. -/
def msg_out_0_byte3 : can_msg_t :=
  { msg_out_0 with payload := bytes8 0x11 0x22 0x33 0x40 0x55 0x66 0x77 0x88 }

/-- The frame of the concrete example of the specification: base identifier `0x7FF`, not
extended, not remote, length 2, payload starting `0xAA, 0xBB`. -/
def msg_7ff : can_msg_t :=
  { arb_id_a := 0x7FF
    arb_id_b := 0
    remote_frame := false
    ext_id := false
    payload := bytes8 0xAA 0xBB 0 0 0 0 0 0
    data_length := 2 }

/-- A bus on which the RX payload-length register of device 0 of `xp_sample` reads 256 and
every other register reads zero. -/
def bus_rx_length_256 : Bus :=
  { mem := fun a => if a = 0x43C00070 then 256 else 0
    log := [] }

/-- A frame whose base identifier `0x800` needs twelve bits. -/
def msg_base_oversized : can_msg_t :=
  { arb_id_a := 0x800
    arb_id_b := 0
    remote_frame := false
    ext_id := false
    payload := bytes8 0 0 0 0 0 0 0 0
    data_length := 0 }

/-- An extended frame whose extension identifier `0x40000` needs nineteen bits. -/
def msg_ext_oversized : can_msg_t :=
  { arb_id_a := 0
    arb_id_b := 0x40000
    remote_frame := false
    ext_id := true
    payload := bytes8 0 0 0 0 0 0 0 0
    data_length := 0 }

/-! ## Conditions on a round -/

/-- The invariant of the tallies after `k` rounds. -/
def tally_invariant (c : sequence_counters) (k : Nat) : Prop :=
  (c.can_ctrl_num = 0 ∨ c.can_ctrl_num = 1 ∨ c.can_ctrl_num = 3) ∧
    (c.success_count + c.fail_count) % 2 ^ 32 = k % 2 ^ 32 ∧
    (c.tx_done_count + c.tx_not_done_count) % 2 ^ 32 = k % 2 ^ 32 ∧
    c.rx_msg_ok_count + c.rx_msg_not_ok_count ≤ 2 * k

/-- The condition under which a round passes: the tx-done flag of the transmitter is 1 and
every device other than device 2 and the transmitter has its rx-valid flag set and holds a
frame that compares equal to the frame sent. -/
def round_passes (xp : xparameters) (msg_out : can_msg_t) (flags : irq_flags) (bus : Bus)
    (stale : Fin 4 → can_msg_t) (tx : Nat) : Prop :=
  flag_read flags.got_tx_done tx = 1 ∧
    ∀ i : Fin 4, i.val = 2 ∨ i.val = tx ∨
      (flags.got_rx_msg i ≠ 0 ∧
        (canola_compare_messages msg_out (canola_get_msg xp i.val (stale i) bus).1).1 = true)

/-- The pass criterion of a round in the words of the claim: the tx-done flag of the
transmitter is 1 and every receiver, a device other than device 2 and the transmitter, has a
nonzero rx-valid flag and holds a frame that compares equal to the frame sent. -/
def pass_criterion (xp : xparameters) (msg_out : can_msg_t) (flags : irq_flags) (bus : Bus)
    (stale : Fin 4 → can_msg_t) (tx : Fin 4) : Prop :=
  flags.got_tx_done tx = 1 ∧
    ∀ i : Fin 4, i.val ≠ 2 → i ≠ tx →
      flags.got_rx_msg i ≠ 0 ∧
        (canola_compare_messages msg_out (canola_get_msg xp i.val (stale i) bus).1).1 = true

/-- Whether an access is a read of one of the statistics counter registers of the device at
`base`, the 32-bit registers at the offsets 0x34 to 0x58. -/
def is_counter_read (base : Nat) (op : BusOp) : Bool :=
  match op with
  | BusOp.rd addr => decide (base + 0x34 ≤ addr ∧ addr ≤ base + 0x58)
  | BusOp.wr _ _ => false

/-! ## Further concrete inputs -/

/-- A round finds flags of device 0 and 1 set and nothing else. -/
def flags_sample : irq_flags :=
  { got_rx_msg := fun i => if i.val = 1 then 1 else 0
    got_tx_done := fun i => if i.val = 0 then 1 else 0
    got_gpio_event := 0 }

/-- A local `msg_out` whose indeterminate initial payload bytes are all `0xFF`. -/
def msg_stale : can_msg_t :=
  { arb_id_a := 0
    arb_id_b := 0
    remote_frame := false
    ext_id := false
    payload := bytes8 0xFF 0xFF 0xFF 0xFF 0xFF 0xFF 0xFF 0xFF
    data_length := 0 }

/-- A sequence of `rand()` values: not extended, remote request, length 2. -/
def rand_remote (k : Nat) : Nat :=
  match k with
  | 3 => 1
  | 4 => 2
  | _ => 0

/-- A sequence of `rand()` values: extended, not remote, length 3, payload 0x11 0x22 0x33. -/
def rand_sample (k : Nat) : Nat :=
  match k with
  | 0 => 0x123
  | 1 => 0x2ABCD
  | 2 => 1
  | 3 => 0
  | 4 => 3
  | 5 => 0x11
  | 6 => 0x22
  | 7 => 0x33
  | _ => 0

/-- The local of `canola_get_msg` holds the stale bytes `0xFF` in every call of a round. -/
def stale_sample : Fin 4 → can_msg_t :=
  fun _ => msg_stale

/-- A remote request of length 2 whose payload array is not zero. -/
def msg_remote : can_msg_t :=
  { arb_id_a := 0x123
    arb_id_b := 0
    remote_frame := true
    ext_id := false
    payload := bytes8 0xAA 0xBB 0xCC 0xDD 0 0 0 0
    data_length := 2 }

/-- A bus on which the RX message-ID register of device 0 of `xp_sample` has the remote
bit set and the RX payload registers are not zero. -/
def bus_rx_remote : Bus :=
  { mem := fun a =>
      if a = 0x43C0006C then 0x12300002
      else if a = 0x43C00070 then 8
      else if a = 0x43C00074 then 0x44332211
      else if a = 0x43C00078 then 0x88776655
      else 0
    log := [] }

/-- A round in which device 0 has sent `msg_out_0` and the devices 1 and 3 have both received
it: all the flags the round checks are set. -/
def round_input_ok : round_input :=
  { msg_out := msg_out_0
    flags :=
      { got_rx_msg := fun _ => 1
        got_tx_done := fun _ => 1
        got_gpio_event := 0 }
    bus :=
      bus_carry xp_sample 0 3
        (bus_carry xp_sample 0 1 (canola_send_msg xp_sample 0 msg_out_0 bus_reset))
    stale := stale_sample }

/-! ## Auxiliary facts -/

/-- The eight iterations of `for8`, first to last. -/
theorem for8_unroll {σ : Type} (body : Fin 8 → σ → σ) (s : σ) :
    for8 body s =
      body 7 (body 6 (body 5 (body 4 (body 3 (body 2 (body 1 (body 0 s))))))) := rfl

/-- Masking with a field of `w` bits at offset `o` and shifting down reads the field. -/
theorem field_read (r w o : Nat) :
    (r &&& ((2 ^ w - 1) <<< o)) >>> o = r / 2 ^ o % 2 ^ w := by
  apply Nat.eq_of_testBit_eq
  intro i
  rw [← Nat.shiftRight_eq_div_pow]
  simp only [Nat.testBit_shiftRight, Nat.testBit_and, Nat.testBit_shiftLeft,
    Nat.testBit_two_pow_sub_one, Nat.testBit_mod_two_pow]
  have h1 : o + i ≥ o := Nat.le_add_right o i
  have h2 : o + i - o = i := by omega
  simp [h1, h2, Bool.and_comm]

/-- An or of a multiple of `2 ^ k` with a number below `2 ^ k` is their sum. -/
theorem or_eq_add (k a b : Nat) (hb : b < 2 ^ k) : a <<< k ||| b = a * 2 ^ k + b := by
  rw [Nat.shiftLeft_eq, Nat.mul_comm, ← Nat.mul_add_lt_is_or hb]

/-- Reduction modulo a power of two distributes over or. -/
theorem or_mod_two_pow (a b n : Nat) : (a ||| b) % 2 ^ n = a % 2 ^ n ||| b % 2 ^ n := by
  apply Nat.eq_of_testBit_eq
  intro i
  simp only [Nat.testBit_mod_two_pow, Nat.testBit_or, Bool.and_or_distrib_left]

/-- The message-ID word of a frame whose identifiers fit their fields, as a sum. -/
theorem tx_msg_id_val (msg : can_msg_t) (ha : msg.arb_id_a < 2 ^ 11)
    (hb : msg.arb_id_b < 2 ^ 18) :
    canola_tx_msg_id_reg msg =
      msg.arb_id_a * 2 ^ 20 + msg.arb_id_b * 2 ^ 2 + (if msg.ext_id then 1 else 0) +
        (if msg.remote_frame then 2 else 0) := by
  have h1 : u32 (msg.arb_id_a <<< 20) = msg.arb_id_a <<< 20 := by
    unfold u32
    rw [Nat.shiftLeft_eq]
    apply Nat.mod_eq_of_lt
    omega
  have h2 : u32 (msg.arb_id_b <<< 2) = msg.arb_id_b <<< 2 := by
    unfold u32
    rw [Nat.shiftLeft_eq]
    apply Nat.mod_eq_of_lt
    omega
  have h3 : msg.arb_id_a <<< 20 ||| msg.arb_id_b <<< 2 =
      (msg.arb_id_a * 2 ^ 18 + msg.arb_id_b) <<< 2 := by
    rw [or_eq_add 20 _ _ (by rw [Nat.shiftLeft_eq]; omega)]
    simp only [Nat.shiftLeft_eq]
    omega
  unfold canola_tx_msg_id_reg
  simp only [TX_MSG_ID_ARB_ID_A_OFFSET, TX_MSG_ID_ARB_ID_B_OFFSET, TX_MSG_ID_EXT_ID_EN_OFFSET,
    TX_MSG_ID_RTR_EN_OFFSET, h1, h2, h3]
  cases msg.ext_id <;> cases msg.remote_frame
  · simp [Nat.shiftLeft_eq]; omega
  · simp only [if_true, if_false, Bool.false_eq_true]
    rw [or_eq_add 2 _ _ (by decide)]
    omega
  · simp only [if_true, if_false, Bool.false_eq_true]
    rw [or_eq_add 2 _ _ (by decide)]
    omega
  · simp only [if_true, if_false, Bool.false_eq_true]
    rw [Nat.or_assoc, or_eq_add 2 _ _ (by decide)]
    have : (1 <<< 0 ||| 1 <<< 1) = 3 := by decide
    omega

/-- A payload word of four bytes, as a sum. -/
theorem pack4_val (b0 b1 b2 b3 : Nat) (h0 : b0 < 2 ^ 8) (h1 : b1 < 2 ^ 8) (h2 : b2 < 2 ^ 8)
    (h3 : b3 < 2 ^ 8) :
    u32 (b0 ||| (b1 <<< 8) ||| (b2 <<< 16) ||| (b3 <<< 24)) =
      b0 + b1 * 2 ^ 8 + b2 * 2 ^ 16 + b3 * 2 ^ 24 := by
  have e1 : b0 ||| (b1 <<< 8) = b1 * 2 ^ 8 + b0 := by
    rw [Nat.or_comm, or_eq_add 8 _ _ h0]
  have e2 : b1 * 2 ^ 8 + b0 ||| (b2 <<< 16) = b2 * 2 ^ 16 + (b1 * 2 ^ 8 + b0) := by
    rw [Nat.or_comm, or_eq_add 16 _ _ (by omega)]
  have e3 : b2 * 2 ^ 16 + (b1 * 2 ^ 8 + b0) ||| (b3 <<< 24) =
      b3 * 2 ^ 24 + (b2 * 2 ^ 16 + (b1 * 2 ^ 8 + b0)) := by
    rw [Nat.or_comm, or_eq_add 24 _ _ (by omega)]
  rw [e1, e2, e3]
  unfold u32
  rw [Nat.mod_eq_of_lt (by omega)]
  omega

/-- One conditional store, read back at an index. -/
theorem ite_update_apply (c : Prop) [Decidable c] (p : Fin 8 → Nat) (j i : Fin 8) :
    (if c then Function.update p j 0 else p) i = if c ∧ i = j then 0 else p i := by
  by_cases hc : c <;> by_cases hij : i = j <;> simp [hc, hij, Function.update]

/-- The loop that clears the whole payload leaves zeros. -/
theorem clear_payload_apply (p : Fin 8 → Nat) (i : Fin 8) : clear_payload p i = 0 := by
  unfold clear_payload
  rw [for8_unroll]
  fin_cases i <;> simp [Function.update]

/-- The loop that clears the unused bytes, read back at an index. -/
theorem clear_unused_payload_apply (data_length : Nat) (p : Fin 8 → Nat) (i : Fin 8) :
    clear_unused_payload data_length p i = if data_length ≤ i.val then 0 else p i := by
  unfold clear_unused_payload
  rw [for8_unroll]
  simp only [ite_update_apply]
  fin_cases i <;> simp <;> rfl

/-- What `canola_get_msg` returns is the decoding of the four RX registers of the device. -/
theorem get_msg_fst (xp : xparameters) (id : Nat) (stale : can_msg_t) (bus : Bus) :
    (canola_get_msg xp id stale bus).1 =
      canola_get_msg_decode stale (bus.mem (canola_get_base_addr xp id + 0x6C))
        (bus.mem (canola_get_base_addr xp id + 0x70))
        (bus.mem (canola_get_base_addr xp id + 0x74))
        (bus.mem (canola_get_base_addr xp id + 0x78)) := rfl

/-- The decoded base identifier. -/
theorem decode_arb_id_a (stale : can_msg_t) (r l p0 p1 : Nat) :
    (canola_get_msg_decode stale r l p0 p1).arb_id_a = r / 2 ^ 20 % 2 ^ 11 := by
  have h : RX_MSG_ID_ARB_ID_A_MASK = (2 ^ 11 - 1) <<< 20 := by decide
  simp only [canola_get_msg_decode, RX_MSG_ID_ARB_ID_A_OFFSET, h, field_read]

/-- The decoded extended-frame flag. -/
theorem decode_ext_id (stale : can_msg_t) (r l p0 p1 : Nat) :
    (canola_get_msg_decode stale r l p0 p1).ext_id = decide (r % 2 = 1) := by
  have h : RX_MSG_ID_EXT_ID_EN_MASK = (2 ^ 1 - 1) <<< 0 := by decide
  simp only [canola_get_msg_decode, RX_MSG_ID_EXT_ID_EN_OFFSET, h, field_read]
  simp

/-- The decoded remote-frame flag. -/
theorem decode_remote_frame (stale : can_msg_t) (r l p0 p1 : Nat) :
    (canola_get_msg_decode stale r l p0 p1).remote_frame = decide (r / 2 % 2 = 1) := by
  have h : RX_MSG_ID_RTR_EN_MASK = (2 ^ 1 - 1) <<< 1 := by decide
  simp only [canola_get_msg_decode, RX_MSG_ID_RTR_EN_OFFSET, h, field_read]
  simp

/-- The decoded extension identifier. -/
theorem decode_arb_id_b (stale : can_msg_t) (r l p0 p1 : Nat) :
    (canola_get_msg_decode stale r l p0 p1).arb_id_b =
      if r % 2 = 1 then r / 2 ^ 2 % 2 ^ 18 else 0 := by
  have h : RX_MSG_ID_ARB_ID_B_MASK = (2 ^ 18 - 1) <<< 2 := by decide
  have h1 : RX_MSG_ID_EXT_ID_EN_MASK = (2 ^ 1 - 1) <<< 0 := by decide
  simp only [canola_get_msg_decode, RX_MSG_ID_ARB_ID_B_OFFSET, RX_MSG_ID_EXT_ID_EN_OFFSET, h, h1,
    field_read]
  simp

/-- The decoded length. -/
theorem decode_data_length (stale : can_msg_t) (r l p0 p1 : Nat) :
    (canola_get_msg_decode stale r l p0 p1).data_length = l % 2 ^ 8 := rfl

/-- The decoded payload, byte by byte. -/
theorem decode_payload (stale : can_msg_t) (r l p0 p1 : Nat) (i : Fin 8) :
    (canola_get_msg_decode stale r l p0 p1).payload i =
      if r / 2 % 2 = 1 ∨ l % 2 ^ 8 ≤ i.val then 0
      else (if i.val / 4 = 0 then p0 else p1) / 2 ^ (8 * (i.val % 4)) % 2 ^ 8 := by
  have h : RX_MSG_ID_RTR_EN_MASK = (2 ^ 1 - 1) <<< 1 := by decide
  have m0 : RX_PAYLOAD_0_PAYLOAD_BYTE_0_MASK = (2 ^ 8 - 1) <<< 0 := by decide
  have m1 : RX_PAYLOAD_0_PAYLOAD_BYTE_1_MASK = (2 ^ 8 - 1) <<< 8 := by decide
  have m2 : RX_PAYLOAD_0_PAYLOAD_BYTE_2_MASK = (2 ^ 8 - 1) <<< 16 := by decide
  have m3 : RX_PAYLOAD_0_PAYLOAD_BYTE_3_MASK = (2 ^ 8 - 1) <<< 24 := by decide
  have m4 : RX_PAYLOAD_1_PAYLOAD_BYTE_4_MASK = (2 ^ 8 - 1) <<< 0 := by decide
  have m5 : RX_PAYLOAD_1_PAYLOAD_BYTE_5_MASK = (2 ^ 8 - 1) <<< 8 := by decide
  have m6 : RX_PAYLOAD_1_PAYLOAD_BYTE_6_MASK = (2 ^ 8 - 1) <<< 16 := by decide
  have m7 : RX_PAYLOAD_1_PAYLOAD_BYTE_7_MASK = (2 ^ 8 - 1) <<< 24 := by decide
  simp only [canola_get_msg_decode, RX_MSG_ID_RTR_EN_OFFSET, h,
    RX_PAYLOAD_0_PAYLOAD_BYTE_0_OFFSET, RX_PAYLOAD_0_PAYLOAD_BYTE_1_OFFSET,
    RX_PAYLOAD_0_PAYLOAD_BYTE_2_OFFSET, RX_PAYLOAD_0_PAYLOAD_BYTE_3_OFFSET,
    RX_PAYLOAD_1_PAYLOAD_BYTE_4_OFFSET, RX_PAYLOAD_1_PAYLOAD_BYTE_5_OFFSET,
    RX_PAYLOAD_1_PAYLOAD_BYTE_6_OFFSET, RX_PAYLOAD_1_PAYLOAD_BYTE_7_OFFSET,
    m0, m1, m2, m3, m4, m5, m6, m7, field_read, u8]
  by_cases hr : r / 2 % 2 = 1
  · have e : decide (r / 2 ^ 1 % 2 ^ 1 = 1) = true := by simpa using hr
    rw [if_pos e, if_pos (Or.inl hr), clear_payload_apply]
  · have e : ¬ decide (r / 2 ^ 1 % 2 ^ 1 = 1) = true := by simpa using hr
    rw [if_neg e, clear_unused_payload_apply]
    by_cases hl : l % 2 ^ 8 ≤ i.val
    · rw [if_pos hl, if_pos (Or.inr hl)]
    · rw [if_neg hl, if_neg (by tauto)]
      fin_cases i <;> simp [Function.update]

/-- The decoded frame does not depend on the stale content of the local. -/
theorem decode_stale (s1 s2 : can_msg_t) (r l p0 p1 : Nat) :
    canola_get_msg_decode s1 r l p0 p1 = canola_get_msg_decode s2 r l p0 p1 := by
  apply can_msg_t.ext
  · rw [decode_arb_id_a, decode_arb_id_a]
  · rw [decode_arb_id_b, decode_arb_id_b]
  · rw [decode_remote_frame, decode_remote_frame]
  · rw [decode_ext_id, decode_ext_id]
  · funext i
    rw [decode_payload, decode_payload]
  · rw [decode_data_length, decode_data_length]

/-- The word `canola_send_msg` leaves in the TX message-ID register. -/
theorem send_mem_msg_id (xp : xparameters) (id : Nat) (msg : can_msg_t) (bus : Bus) :
    (canola_send_msg xp id msg bus).mem (canola_get_base_addr xp id + 0x5C) =
      canola_tx_msg_id_reg msg := by
  simp [canola_send_msg, Xil_Out32, TX_MSG_ID_OFFSET, TX_PAYLOAD_0_OFFSET, TX_PAYLOAD_1_OFFSET,
    TX_PAYLOAD_LENGTH_OFFSET, CONTROL_OFFSET]

/-- The word `canola_send_msg` leaves in the TX payload-0 register. -/
theorem send_mem_payload_0 (xp : xparameters) (id : Nat) (msg : can_msg_t) (bus : Bus) :
    (canola_send_msg xp id msg bus).mem (canola_get_base_addr xp id + 0x64) =
      canola_tx_payload_0_reg msg := by
  simp [canola_send_msg, Xil_Out32, TX_MSG_ID_OFFSET, TX_PAYLOAD_0_OFFSET, TX_PAYLOAD_1_OFFSET,
    TX_PAYLOAD_LENGTH_OFFSET, CONTROL_OFFSET]

/-- The word `canola_send_msg` leaves in the TX payload-1 register. -/
theorem send_mem_payload_1 (xp : xparameters) (id : Nat) (msg : can_msg_t) (bus : Bus) :
    (canola_send_msg xp id msg bus).mem (canola_get_base_addr xp id + 0x68) =
      canola_tx_payload_1_reg msg := by
  simp [canola_send_msg, Xil_Out32, TX_MSG_ID_OFFSET, TX_PAYLOAD_0_OFFSET, TX_PAYLOAD_1_OFFSET,
    TX_PAYLOAD_LENGTH_OFFSET, CONTROL_OFFSET]

/-- The word `canola_send_msg` leaves in the TX payload-length register. -/
theorem send_mem_payload_length (xp : xparameters) (id : Nat) (msg : can_msg_t) (bus : Bus) :
    (canola_send_msg xp id msg bus).mem (canola_get_base_addr xp id + 0x60) =
      msg.data_length := by
  simp [canola_send_msg, Xil_Out32, TX_MSG_ID_OFFSET, TX_PAYLOAD_0_OFFSET, TX_PAYLOAD_1_OFFSET,
    TX_PAYLOAD_LENGTH_OFFSET, CONTROL_OFFSET]

/-- Every byte of a frame is found again in the payload words at its position. -/
theorem tx_payload_byte (msg : can_msg_t) (hp : ∀ i : Fin 8, msg.payload i < 2 ^ 8)
    (i : Fin 8) :
    (if i.val / 4 = 0 then canola_tx_payload_0_reg msg else canola_tx_payload_1_reg msg) /
        2 ^ (8 * (i.val % 4)) % 2 ^ 8 = msg.payload i := by
  have e0 := pack4_val _ _ _ _ (hp 0) (hp 1) (hp 2) (hp 3)
  have e1 := pack4_val _ _ _ _ (hp 4) (hp 5) (hp 6) (hp 7)
  have h0 := hp 0
  have h1 := hp 1
  have h2 := hp 2
  have h3 := hp 3
  have h4 := hp 4
  have h5 := hp 5
  have h6 := hp 6
  have h7 := hp 7
  unfold canola_tx_payload_0_reg canola_tx_payload_1_reg
  rw [e0, e1]
  fin_cases i <;> simp <;> omega

/-- Division by a power of two distributes over or. -/
theorem or_div_two_pow (a b n : Nat) : (a ||| b) / 2 ^ n = a / 2 ^ n ||| b / 2 ^ n := by
  apply Nat.eq_of_testBit_eq
  intro i
  simp only [← Nat.shiftRight_eq_div_pow, Nat.testBit_shiftRight, Nat.testBit_or]

/-- The message-ID word of any frame as one or of four terms. -/
theorem tx_msg_id_or (msg : can_msg_t) :
    canola_tx_msg_id_reg msg =
      (u32 (msg.arb_id_a <<< 20) ||| u32 (msg.arb_id_b <<< 2) |||
        (if msg.ext_id then 1 else 0) ||| (if msg.remote_frame then 2 else 0)) := by
  simp only [canola_tx_msg_id_reg, TX_MSG_ID_ARB_ID_A_OFFSET, TX_MSG_ID_ARB_ID_B_OFFSET,
    TX_MSG_ID_EXT_ID_EN_OFFSET, TX_MSG_ID_RTR_EN_OFFSET]
  cases msg.ext_id <;> cases msg.remote_frame <;> simp

/-- A loop over the eight indices that stops at the first index satisfying `c`: either it
returns the value of the least such index, or no index satisfies `c` and it runs through. -/
theorem for8_first {α : Type} (c : Fin 8 → Prop) [DecidablePred c] (f : Fin 8 → α) :
    (∃ j : Fin 8, c j ∧ (∀ k : Fin 8, k < j → ¬ c k) ∧
        for8 (fun i r => return_if (c i) (f i) r) none = some (f j)) ∨
      ((∀ k : Fin 8, ¬ c k) ∧
        for8 (fun i r => return_if (c i) (f i) r) none = none) := by
  rw [for8_unroll]
  have below : ∀ j k : Fin 8, k < j →
      k = 0 ∨ k = 1 ∨ k = 2 ∨ k = 3 ∨ k = 4 ∨ k = 5 ∨ k = 6 := by decide
  have all : ∀ k : Fin 8,
      k = 0 ∨ k = 1 ∨ k = 2 ∨ k = 3 ∨ k = 4 ∨ k = 5 ∨ k = 6 ∨ k = 7 := by decide
  by_cases h0 : c 0
  · refine Or.inl ⟨0, h0, ?_, by simp [return_if, h0]⟩
    intro k hk
    rcases below 0 k hk with e | e | e | e | e | e | e <;> subst e <;>
      first | assumption | exact absurd hk (by decide)
  · by_cases h1 : c 1
    · refine Or.inl ⟨1, h1, ?_, by simp [return_if, h0, h1]⟩
      intro k hk
      rcases below 1 k hk with e | e | e | e | e | e | e <;> subst e <;>
        first | assumption | exact absurd hk (by decide)
    · by_cases h2 : c 2
      · refine Or.inl ⟨2, h2, ?_, by simp [return_if, h0, h1, h2]⟩
        intro k hk
        rcases below 2 k hk with e | e | e | e | e | e | e <;> subst e <;>
          first | assumption | exact absurd hk (by decide)
      · by_cases h3 : c 3
        · refine Or.inl ⟨3, h3, ?_, by simp [return_if, h0, h1, h2, h3]⟩
          intro k hk
          rcases below 3 k hk with e | e | e | e | e | e | e <;> subst e <;>
            first | assumption | exact absurd hk (by decide)
        · by_cases h4 : c 4
          · refine Or.inl ⟨4, h4, ?_, by simp [return_if, h0, h1, h2, h3, h4]⟩
            intro k hk
            rcases below 4 k hk with e | e | e | e | e | e | e <;> subst e <;>
              first | assumption | exact absurd hk (by decide)
          · by_cases h5 : c 5
            · refine Or.inl ⟨5, h5, ?_, by simp [return_if, h0, h1, h2, h3, h4, h5]⟩
              intro k hk
              rcases below 5 k hk with e | e | e | e | e | e | e <;> subst e <;>
                first | assumption | exact absurd hk (by decide)
            · by_cases h6 : c 6
              · refine Or.inl ⟨6, h6, ?_, by simp [return_if, h0, h1, h2, h3, h4, h5, h6]⟩
                intro k hk
                rcases below 6 k hk with e | e | e | e | e | e | e <;> subst e <;>
                  first | assumption | exact absurd hk (by decide)
              · by_cases h7 : c 7
                · refine Or.inl ⟨7, h7, ?_, by simp [return_if, h0, h1, h2, h3, h4, h5, h6, h7]⟩
                  intro k hk
                  rcases below 7 k hk with e | e | e | e | e | e | e <;> subst e <;> assumption
                · refine Or.inr ⟨?_, by simp [return_if, h0, h1, h2, h3, h4, h5, h6, h7]⟩
                  intro k
                  rcases all k with e | e | e | e | e | e | e | e <;> subst e <;> assumption

/-- The payload loop of the comparison: it reports the least index below the length at which
the payloads differ, or reports nothing when there is none. -/
theorem compare_payload_cases (m1 m2 : can_msg_t) :
    (∃ j : Fin 8, (j.val < m1.data_length ∧ m1.payload j ≠ m2.payload j) ∧
        (∀ k : Fin 8, k < j → ¬ (k.val < m1.data_length ∧ m1.payload k ≠ m2.payload k)) ∧
        compare_payload m1 m2 =
          some (Mismatch.payload j.val (m1.payload j) (m2.payload j))) ∨
      ((∀ k : Fin 8, ¬ (k.val < m1.data_length ∧ m1.payload k ≠ m2.payload k)) ∧
        compare_payload m1 m2 = none) :=
  for8_first (fun i => i.val < m1.data_length ∧ m1.payload i ≠ m2.payload i)
    (fun i => Mismatch.payload i.val (m1.payload i) (m2.payload i))

/-- When `canola_compare_messages` returns true. -/
theorem compare_true_iff (m1 m2 : can_msg_t) :
    (canola_compare_messages m1 m2).1 = true ↔
      (m1.arb_id_a = m2.arb_id_a ∧ m1.ext_id = m2.ext_id ∧
        (m1.ext_id = true → m1.arb_id_b = m2.arb_id_b) ∧
        m1.remote_frame = m2.remote_frame ∧ m1.data_length = m2.data_length ∧
        (m1.remote_frame = false →
          ∀ i : Fin 8, i.val < m1.data_length → m1.payload i = m2.payload i)) := by
  unfold canola_compare_messages
  by_cases ha : m1.arb_id_a = m2.arb_id_a
  swap
  · rw [if_pos ha]
    simp only [Bool.false_eq_true, false_iff]
    tauto
  rw [if_neg (not_not.mpr ha)]
  by_cases he : m1.ext_id = m2.ext_id
  swap
  · rw [if_pos he]
    simp only [Bool.false_eq_true, false_iff]
    tauto
  rw [if_neg (not_not.mpr he)]
  by_cases hb : m1.ext_id = true ∧ m1.arb_id_b ≠ m2.arb_id_b
  · rw [if_pos hb]
    simp only [Bool.false_eq_true, false_iff]
    tauto
  rw [if_neg hb]
  by_cases hr : m1.remote_frame = m2.remote_frame
  swap
  · rw [if_pos hr]
    simp only [Bool.false_eq_true, false_iff]
    tauto
  rw [if_neg (not_not.mpr hr)]
  by_cases hl : m1.data_length = m2.data_length
  swap
  · rw [if_pos hl]
    simp only [Bool.false_eq_true, false_iff]
    tauto
  rw [if_neg (not_not.mpr hl)]
  have hb2 : m1.ext_id = true → m1.arb_id_b = m2.arb_id_b := by
    intro h
    by_contra hne
    exact hb ⟨h, hne⟩
  by_cases hrf : m1.remote_frame = false
  · rw [if_pos hrf]
    rcases compare_payload_cases m1 m2 with ⟨j, hc, _, hs⟩ | ⟨hn, hs⟩
    · rw [hs]
      simp only [Bool.false_eq_true, false_iff]
      intro h
      exact hc.2 (h.2.2.2.2.2 hrf j hc.1)
    · rw [hs]
      simp only [true_iff]
      refine ⟨ha, he, hb2, hr, hl, fun _ i hi => ?_⟩
      by_contra hne
      exact hn i ⟨hi, hne⟩
  · rw [if_neg hrf]
    simp only [true_iff]
    exact ⟨ha, he, hb2, hr, hl, fun h => absurd h hrf⟩

/-- The four iterations of `for4`, first to last. -/
theorem for4_unroll {σ : Type} (body : Fin 4 → σ → σ) (s : σ) :
    for4 body s = body 3 (body 2 (body 1 (body 0 s))) := rfl

/-- After the clearing loop every rx-valid flag is zero. -/
theorem clear_irq_flags_rx (flags : irq_flags) (i : Fin 4) :
    (clear_irq_flags flags).got_rx_msg i = 0 := by
  unfold clear_irq_flags
  rw [for4_unroll]
  fin_cases i <;> simp [Function.update]

/-- After the clearing loop every tx-done flag is zero. -/
theorem clear_irq_flags_tx (flags : irq_flags) (i : Fin 4) :
    (clear_irq_flags flags).got_tx_done i = 0 := by
  unfold clear_irq_flags
  rw [for4_unroll]
  fin_cases i <;> simp [Function.update]

/-- The clearing loop leaves the GPIO flag alone. -/
theorem clear_irq_flags_gpio (flags : irq_flags) :
    (clear_irq_flags flags).got_gpio_event = flags.got_gpio_event := rfl

/-- The rx-valid callback of a device below 4 stores 1 in its entry. -/
theorem IrqRxValidHandler_eq (i : Fin 4) (flags : irq_flags) :
    IrqRxValidHandler i.val flags =
      { flags with got_rx_msg := Function.update flags.got_rx_msg i 1 } := by
  unfold IrqRxValidHandler
  rw [dif_pos i.isLt]

/-- The tx-done callback of a device below 4 stores 1 in its entry. -/
theorem IrqTxDoneHandler_eq (i : Fin 4) (flags : irq_flags) :
    IrqTxDoneHandler i.val flags =
      { flags with got_tx_done := Function.update flags.got_tx_done i 1 } := by
  unfold IrqTxDoneHandler
  rw [dif_pos i.isLt]

/-- Delivering the rx-valid signal again changes nothing. -/
theorem IrqRxValidHandler_idem (i : Fin 4) (flags : irq_flags) :
    IrqRxValidHandler i.val (IrqRxValidHandler i.val flags) = IrqRxValidHandler i.val flags := by
  simp only [IrqRxValidHandler_eq, Function.update_idem]

/-- Delivering the tx-done signal again changes nothing. -/
theorem IrqTxDoneHandler_idem (i : Fin 4) (flags : irq_flags) :
    IrqTxDoneHandler i.val (IrqTxDoneHandler i.val flags) = IrqTxDoneHandler i.val flags := by
  simp only [IrqTxDoneHandler_eq, Function.update_idem]

/-- An idempotent map iterated at least once is the map. -/
theorem iterate_idem {α : Type} (f : α → α) (h : ∀ x, f (f x) = f x) (n : Nat) (x : α) :
    Nat.iterate f (n + 1) x = f x := by
  induction n generalizing x with
  | zero => rfl
  | succ n ih =>
    rw [Function.iterate_succ_apply, ih, h]

/-- The advance of the transmitter index on the three active devices. -/
theorem advance_cases :
    advance_can_ctrl_num 0 = 1 ∧ advance_can_ctrl_num 1 = 3 ∧ advance_can_ctrl_num 3 = 0 := by
  decide

/-- The transmitter index after `k` advances from 0. -/
theorem iterate_advance (k : Nat) :
    Nat.iterate advance_can_ctrl_num k 0 = [0, 1, 3].getD (k % 3) 0 := by
  have h : ∀ m : Nat, Nat.iterate advance_can_ctrl_num (3 * m) 0 = 0 := by
    intro m
    induction m with
    | zero => rfl
    | succ m ih =>
      have e : 3 * (m + 1) = 3 + 3 * m := by omega
      rw [e, Function.iterate_add_apply, ih]
      decide
  have e : k = k % 3 + 3 * (k / 3) := by omega
  have hk : k % 3 < 3 := Nat.mod_lt _ (by decide)
  rw [e, Function.iterate_add_apply, h]
  have e2 : (k % 3 + 3 * (k / 3)) % 3 = k % 3 := by omega
  rw [e2]
  interval_cases (k % 3) <;> decide

/-- A universal statement over the four devices, device by device. -/
theorem forall_fin4 (P : Fin 4 → Prop) : (∀ i : Fin 4, P i) ↔ P 0 ∧ P 1 ∧ P 2 ∧ P 3 := by
  constructor
  · intro h
    exact ⟨h 0, h 1, h 2, h 3⟩
  · rintro ⟨h0, h1, h2, h3⟩ i
    fin_cases i <;> assumption

/-- What `canola_get_msg` returns depends on the register contents only. -/
theorem get_msg_congr (xp : xparameters) (id : Nat) (s1 s2 : can_msg_t) (b1 b2 : Bus)
    (h : b1.mem = b2.mem) :
    (canola_get_msg xp id s1 b1).1 = (canola_get_msg xp id s2 b2).1 := by
  rw [get_msg_fst, get_msg_fst, h]
  exact decode_stale s1 s2 _ _ _ _

/-- Reading a frame leaves the register contents as they are. -/
theorem get_msg_mem (xp : xparameters) (id : Nat) (stale : can_msg_t) (bus : Bus) :
    (canola_get_msg xp id stale bus).2.mem = bus.mem := rfl

/-- Dumping the statistics leaves the register contents as they are. -/
theorem print_status_regs_mem (xp : xparameters) (id : Nat) (bus : Bus) :
    (canola_print_status_regs xp id bus).2.mem = bus.mem := rfl

/-- An increment of an `unsigned int` is never the old value. -/
theorem u32_succ_ne (x : Nat) : u32 (x + 1) ≠ x := by
  unfold u32
  omega

/-- An increment of an `unsigned int` adds at most one. -/
theorem u32_succ_le (x : Nat) : u32 (x + 1) ≤ x + 1 := by
  unfold u32
  exact Nat.mod_le _ _

/-- One iteration of the loop over the receivers, field by field, relative to the registers
`bus0` and the transmitter `tx` the round started with. -/
theorem check_receiver_spec (xp : xparameters) (msg_out : can_msg_t) (flags : irq_flags)
    (stale : Fin 4 → can_msg_t) (i : Fin 4) (s : round_state) (bus0 : Bus) (tx : Nat) (hm : s.bus.mem = bus0.mem)
    (htx : s.counters.can_ctrl_num = tx) :
    (check_receiver xp msg_out flags stale i s).bus.mem = bus0.mem ∧
      (check_receiver xp msg_out flags stale i s).counters.can_ctrl_num = tx ∧
      (check_receiver xp msg_out flags stale i s).counters.tx_done_count =
        s.counters.tx_done_count ∧
      (check_receiver xp msg_out flags stale i s).counters.tx_not_done_count =
        s.counters.tx_not_done_count ∧
      (check_receiver xp msg_out flags stale i s).counters.rx_msg_count = s.counters.rx_msg_count ∧
      (check_receiver xp msg_out flags stale i s).counters.success_count =
        s.counters.success_count ∧
      (check_receiver xp msg_out flags stale i s).counters.fail_count = s.counters.fail_count ∧
      (check_receiver xp msg_out flags stale i s).counters.msg_sent_count =
        s.counters.msg_sent_count ∧
      ((check_receiver xp msg_out flags stale i s).test_ok = true ↔
        s.test_ok = true ∧
          (i.val = 2 ∨ i.val = tx ∨
            (flags.got_rx_msg i ≠ 0 ∧
              (canola_compare_messages msg_out (canola_get_msg xp i.val (stale i) bus0).1).1 = true))) ∧
      (check_receiver xp msg_out flags stale i s).counters.rx_msg_ok_count +
          (check_receiver xp msg_out flags stale i s).counters.rx_msg_not_ok_count ≤
        s.counters.rx_msg_ok_count + s.counters.rx_msg_not_ok_count +
          (if i.val = 2 ∨ i.val = tx then 0 else 1) := by
  rw [← get_msg_congr xp i.val (stale i) (stale i) s.bus bus0 hm]
  subst htx
  rw [← hm]
  unfold check_receiver
  by_cases h2 : i.val = 2
  · rw [if_pos h2]
    simp [h2]
  rw [if_neg h2]
  by_cases ht : i.val = s.counters.can_ctrl_num
  · rw [if_pos ht]
    simp [ht]
  rw [if_neg ht]
  by_cases hf : flags.got_rx_msg i = 0
  · rw [if_pos hf]
    simp [h2, ht, hf]
  rw [if_neg hf]
  have hok := u32_succ_le s.counters.rx_msg_ok_count
  have hno := u32_succ_le s.counters.rx_msg_not_ok_count
  have hskip : ¬ (i.val = 2 ∨ i.val = s.counters.can_ctrl_num) := by tauto
  dsimp only
  by_cases hc : (canola_compare_messages msg_out (canola_get_msg xp i.val (stale i) s.bus).1).1 = false
  · rw [if_pos hc, if_neg hskip]
    refine ⟨rfl, rfl, rfl, rfl, rfl, rfl, rfl, rfl, ?_, ?_⟩
    · simp [hc, h2, ht]
    · show s.counters.rx_msg_ok_count + u32 (s.counters.rx_msg_not_ok_count + 1) ≤ _
      omega
  · rw [if_neg hc, if_neg hskip]
    refine ⟨rfl, rfl, rfl, rfl, rfl, rfl, rfl, rfl, ?_, ?_⟩
    · have hc2 : (canola_compare_messages msg_out (canola_get_msg xp i.val (stale i) s.bus).1).1 = true := by
        simpa using hc
      simp [h2, ht, hf, hc2]
    · show u32 (s.counters.rx_msg_ok_count + 1) + s.counters.rx_msg_not_ok_count ≤ _
      omega

/-- The check of the transmitter, field by field. -/
theorem check_transmitter_spec (flags : irq_flags) (c : sequence_counters) (bus : Bus) :
    (check_transmitter flags { test_ok := true, counters := c, bus := bus }).bus = bus ∧
      (check_transmitter flags { test_ok := true, counters := c, bus := bus }).test_ok =
        decide (flag_read flags.got_tx_done c.can_ctrl_num = 1) ∧
      (check_transmitter flags { test_ok := true, counters := c, bus := bus }).counters =
        (if flag_read flags.got_tx_done c.can_ctrl_num = 1 then
          { c with tx_done_count := u32 (c.tx_done_count + 1) }
        else { c with tx_not_done_count := u32 (c.tx_not_done_count + 1) }) := by
  unfold check_transmitter
  by_cases h : flag_read flags.got_tx_done c.can_ctrl_num = 1
  · simp [h]
  · simp [h]

/-- The loop over the receivers, field by field. -/
theorem check_receivers_spec (xp : xparameters) (msg_out : can_msg_t) (flags : irq_flags)
    (stale : Fin 4 → can_msg_t) (s : round_state) :
    (for4 (check_receiver xp msg_out flags stale) s).bus.mem = s.bus.mem ∧
      (for4 (check_receiver xp msg_out flags stale) s).counters.can_ctrl_num =
        s.counters.can_ctrl_num ∧
      (for4 (check_receiver xp msg_out flags stale) s).counters.tx_done_count =
        s.counters.tx_done_count ∧
      (for4 (check_receiver xp msg_out flags stale) s).counters.tx_not_done_count =
        s.counters.tx_not_done_count ∧
      (for4 (check_receiver xp msg_out flags stale) s).counters.rx_msg_count =
        s.counters.rx_msg_count ∧
      (for4 (check_receiver xp msg_out flags stale) s).counters.success_count =
        s.counters.success_count ∧
      (for4 (check_receiver xp msg_out flags stale) s).counters.fail_count = s.counters.fail_count ∧
      (for4 (check_receiver xp msg_out flags stale) s).counters.msg_sent_count =
        s.counters.msg_sent_count ∧
      ((for4 (check_receiver xp msg_out flags stale) s).test_ok = true ↔
        s.test_ok = true ∧
          ∀ i : Fin 4, i.val = 2 ∨ i.val = s.counters.can_ctrl_num ∨
            (flags.got_rx_msg i ≠ 0 ∧
              (canola_compare_messages msg_out (canola_get_msg xp i.val (stale i) s.bus).1).1 = true)) ∧
      (for4 (check_receiver xp msg_out flags stale) s).counters.rx_msg_ok_count +
          (for4 (check_receiver xp msg_out flags stale) s).counters.rx_msg_not_ok_count ≤
        s.counters.rx_msg_ok_count + s.counters.rx_msg_not_ok_count +
          ((if s.counters.can_ctrl_num = 0 then 0 else 1) +
            (if s.counters.can_ctrl_num = 1 then 0 else 1) +
            (if s.counters.can_ctrl_num = 3 then 0 else 1)) := by
  rw [for4_unroll]
  have A := check_receiver_spec xp msg_out flags stale 0 s s.bus s.counters.can_ctrl_num rfl rfl
  generalize check_receiver xp msg_out flags stale 0 s = s1 at A ⊢
  have B := check_receiver_spec xp msg_out flags stale 1 s1 s.bus s.counters.can_ctrl_num A.1 A.2.1
  generalize check_receiver xp msg_out flags stale 1 s1 = s2 at B ⊢
  have C := check_receiver_spec xp msg_out flags stale 2 s2 s.bus s.counters.can_ctrl_num B.1 B.2.1
  generalize check_receiver xp msg_out flags stale 2 s2 = s3 at C ⊢
  have D := check_receiver_spec xp msg_out flags stale 3 s3 s.bus s.counters.can_ctrl_num C.1 C.2.1
  generalize check_receiver xp msg_out flags stale 3 s3 = s4 at D ⊢
  obtain ⟨_, _, a2, a3, a4, a5, a6, a7, a8, a9⟩ := A
  obtain ⟨_, _, b2, b3, b4, b5, b6, b7, b8, b9⟩ := B
  obtain ⟨_, _, c2, c3, c4, c5, c6, c7, c8, c9⟩ := C
  obtain ⟨d0, d1, d2, d3, d4, d5, d6, d7, d8, d9⟩ := D
  refine ⟨d0, d1, d2.trans (c2.trans (b2.trans a2)), d3.trans (c3.trans (b3.trans a3)),
    d4.trans (c4.trans (b4.trans a4)), d5.trans (c5.trans (b5.trans a5)),
    d6.trans (c6.trans (b6.trans a6)), d7.trans (c7.trans (b7.trans a7)), ?_, ?_⟩
  · constructor
    · intro h
      obtain ⟨h3, p3⟩ := d8.mp h
      obtain ⟨h2, p2⟩ := c8.mp h3
      obtain ⟨h1, p1⟩ := b8.mp h2
      obtain ⟨h0, p0⟩ := a8.mp h1
      refine ⟨h0, fun i => ?_⟩
      fin_cases i
      · exact p0
      · exact p1
      · exact p2
      · exact p3
    · rintro ⟨h0, hp⟩
      exact d8.mpr ⟨c8.mpr ⟨b8.mpr ⟨a8.mpr ⟨h0, hp 0⟩, hp 1⟩, hp 2⟩, hp 3⟩
  · have e0 : ((0 : Fin 4).val = 2 ∨ (0 : Fin 4).val = s.counters.can_ctrl_num) ↔
        s.counters.can_ctrl_num = 0 := by
      have v : (((0 : Fin 4).val) : Nat) = 0 := rfl
      omega
    have e1 : ((1 : Fin 4).val = 2 ∨ (1 : Fin 4).val = s.counters.can_ctrl_num) ↔
        s.counters.can_ctrl_num = 1 := by
      have v : (((1 : Fin 4).val) : Nat) = 1 := rfl
      omega
    have e3 : ((3 : Fin 4).val = 2 ∨ (3 : Fin 4).val = s.counters.can_ctrl_num) ↔
        s.counters.can_ctrl_num = 3 := by
      have v : (((3 : Fin 4).val) : Nat) = 3 := rfl
      omega
    have e2 : ((2 : Fin 4).val = 2 ∨ (2 : Fin 4).val = s.counters.can_ctrl_num) := Or.inl rfl
    rw [if_pos e2] at c9
    simp only [e0] at a9
    simp only [e1] at b9
    simp only [e3] at d9
    omega

/-- The periodic dump changes the send counter and the access log only. -/
theorem dump_statistics_spec (xp : xparameters) (s : round_state) :
    (dump_statistics xp s).test_ok = s.test_ok ∧
      (dump_statistics xp s).bus.mem = s.bus.mem ∧
      (dump_statistics xp s).counters.can_ctrl_num = s.counters.can_ctrl_num ∧
      (dump_statistics xp s).counters.tx_done_count = s.counters.tx_done_count ∧
      (dump_statistics xp s).counters.tx_not_done_count = s.counters.tx_not_done_count ∧
      (dump_statistics xp s).counters.rx_msg_count = s.counters.rx_msg_count ∧
      (dump_statistics xp s).counters.rx_msg_ok_count = s.counters.rx_msg_ok_count ∧
      (dump_statistics xp s).counters.rx_msg_not_ok_count = s.counters.rx_msg_not_ok_count ∧
      (dump_statistics xp s).counters.success_count = s.counters.success_count ∧
      (dump_statistics xp s).counters.fail_count = s.counters.fail_count := by
  unfold dump_statistics
  by_cases h : u32 (s.counters.msg_sent_count + 1) ≥ 10000
  · rw [if_pos h]
    exact ⟨rfl,
      (print_status_regs_mem xp 3 _).trans
        ((print_status_regs_mem xp 1 _).trans (print_status_regs_mem xp 0 _)),
      rfl, rfl, rfl, rfl, rfl, rfl, rfl, rfl⟩
  · rw [if_neg h]
    exact ⟨rfl, rfl, rfl, rfl, rfl, rfl, rfl, rfl, rfl, rfl⟩

/-- One round, field by field. -/
theorem sequence_round_spec (xp : xparameters) (msg_out : can_msg_t) (flags : irq_flags)
    (bus : Bus) (stale : Fin 4 → can_msg_t) (c : sequence_counters) :
    (sequence_round xp msg_out flags bus stale c).1.can_ctrl_num =
        advance_can_ctrl_num c.can_ctrl_num ∧
      (sequence_round xp msg_out flags bus stale c).1.rx_msg_count = c.rx_msg_count ∧
      (sequence_round xp msg_out flags bus stale c).2.1 = clear_irq_flags flags ∧
      (sequence_round xp msg_out flags bus stale c).2.2.mem = bus.mem ∧
      (flag_read flags.got_tx_done c.can_ctrl_num = 1 →
        (sequence_round xp msg_out flags bus stale c).1.tx_done_count = u32 (c.tx_done_count + 1) ∧
          (sequence_round xp msg_out flags bus stale c).1.tx_not_done_count =
            c.tx_not_done_count) ∧
      (¬ flag_read flags.got_tx_done c.can_ctrl_num = 1 →
        (sequence_round xp msg_out flags bus stale c).1.tx_done_count = c.tx_done_count ∧
          (sequence_round xp msg_out flags bus stale c).1.tx_not_done_count =
            u32 (c.tx_not_done_count + 1)) ∧
      (round_passes xp msg_out flags bus stale c.can_ctrl_num →
        (sequence_round xp msg_out flags bus stale c).1.success_count = u32 (c.success_count + 1) ∧
          (sequence_round xp msg_out flags bus stale c).1.fail_count = c.fail_count) ∧
      (¬ round_passes xp msg_out flags bus stale c.can_ctrl_num →
        (sequence_round xp msg_out flags bus stale c).1.success_count = c.success_count ∧
          (sequence_round xp msg_out flags bus stale c).1.fail_count = u32 (c.fail_count + 1)) ∧
      (sequence_round xp msg_out flags bus stale c).1.rx_msg_ok_count +
          (sequence_round xp msg_out flags bus stale c).1.rx_msg_not_ok_count ≤
        c.rx_msg_ok_count + c.rx_msg_not_ok_count +
          ((if c.can_ctrl_num = 0 then 0 else 1) + (if c.can_ctrl_num = 1 then 0 else 1) +
            (if c.can_ctrl_num = 3 then 0 else 1)) := by
  unfold sequence_round
  dsimp only
  obtain ⟨t0, t1, t2⟩ := check_transmitter_spec flags c bus
  generalize check_transmitter flags { test_ok := true, counters := c, bus := bus } = s1
    at t0 t1 t2 ⊢
  obtain ⟨r0, r1, r2, r3, r4, r5, r6, r7, r8, r9⟩ := check_receivers_spec xp msg_out flags stale s1
  generalize for4 (check_receiver xp msg_out flags stale) s1 = s2 at r0 r1 r2 r3 r4 r5 r6 r7 r8 r9 ⊢
  obtain ⟨u0, u1, u2, u3, u4, u5, u6, u7, u8, u9⟩ := dump_statistics_spec xp s2
  generalize dump_statistics xp s2 = s3 at u0 u1 u2 u3 u4 u5 u6 u7 u8 u9 ⊢
  have hccn : s1.counters.can_ctrl_num = c.can_ctrl_num := by
    rw [t2]
    split_ifs <;> rfl
  have hrxc : s1.counters.rx_msg_count = c.rx_msg_count := by
    rw [t2]
    split_ifs <;> rfl
  have hrxok : s1.counters.rx_msg_ok_count = c.rx_msg_ok_count := by
    rw [t2]
    split_ifs <;> rfl
  have hrxno : s1.counters.rx_msg_not_ok_count = c.rx_msg_not_ok_count := by
    rw [t2]
    split_ifs <;> rfl
  have hsu : s1.counters.success_count = c.success_count := by
    rw [t2]
    split_ifs <;> rfl
  have hfa : s1.counters.fail_count = c.fail_count := by
    rw [t2]
    split_ifs <;> rfl
  have hok : s3.test_ok = true ↔ round_passes xp msg_out flags bus stale c.can_ctrl_num := by
    rw [u0, r8, t1, hccn, t0]
    unfold round_passes
    simp
  have tl : ∀ s : round_state,
      (tally s).can_ctrl_num = s.counters.can_ctrl_num ∧
        (tally s).rx_msg_count = s.counters.rx_msg_count ∧
        (tally s).tx_done_count = s.counters.tx_done_count ∧
        (tally s).tx_not_done_count = s.counters.tx_not_done_count ∧
        (tally s).rx_msg_ok_count = s.counters.rx_msg_ok_count ∧
        (tally s).rx_msg_not_ok_count = s.counters.rx_msg_not_ok_count := by
    intro s
    unfold tally
    split_ifs <;> exact ⟨rfl, rfl, rfl, rfl, rfl, rfl⟩
  obtain ⟨v0, v1, v2, v3, v4, v5⟩ := tl s3
  refine ⟨?_, ?_, rfl, ?_, ?_, ?_, ?_, ?_, ?_⟩
  · show advance_can_ctrl_num (tally s3).can_ctrl_num = _
    rw [v0, u2, r1, hccn]
  · show (tally s3).rx_msg_count = _
    rw [v1, u5, r4, hrxc]
  · show s3.bus.mem = _
    rw [u1, r0, t0]
  · intro h
    show (tally s3).tx_done_count = _ ∧ (tally s3).tx_not_done_count = _
    rw [v2, v3, u3, u4, r2, r3, t2, if_pos h]
    exact ⟨rfl, rfl⟩
  · intro h
    show (tally s3).tx_done_count = _ ∧ (tally s3).tx_not_done_count = _
    rw [v2, v3, u3, u4, r2, r3, t2, if_neg h]
    exact ⟨rfl, rfl⟩
  · intro h
    show (tally s3).success_count = _ ∧ (tally s3).fail_count = _
    unfold tally
    rw [if_pos (hok.mpr h)]
    show u32 (s3.counters.success_count + 1) = _ ∧ s3.counters.fail_count = _
    rw [u8, u9, r5, r6, hsu, hfa]
    exact ⟨rfl, rfl⟩
  · intro h
    show (tally s3).success_count = _ ∧ (tally s3).fail_count = _
    unfold tally
    rw [if_neg (fun h3 => h (hok.mp h3))]
    show s3.counters.success_count = _ ∧ u32 (s3.counters.fail_count + 1) = _
    rw [u8, u9, r5, r6, hsu, hfa]
    exact ⟨rfl, rfl⟩
  · show (tally s3).rx_msg_ok_count + (tally s3).rx_msg_not_ok_count ≤ _
    rw [v4, v5, u6, u7, ← hrxok, ← hrxno, ← hccn]
    exact r9

/-- The rounds, one at a time. -/
theorem run_rounds_cons (xp : xparameters) (r : round_input) (rs : List round_input)
    (c : sequence_counters) :
    run_rounds xp (r :: rs) c =
      run_rounds xp rs (sequence_round xp r.msg_out r.flags r.bus r.stale c).1 := by
  simp only [run_rounds, List.foldl_cons]

/-- The transmitter index after the rounds is the advance applied once per round. -/
theorem run_rounds_can_ctrl_num (xp : xparameters) (inputs : List round_input)
    (c : sequence_counters) :
    (run_rounds xp inputs c).can_ctrl_num =
      Nat.iterate advance_can_ctrl_num inputs.length c.can_ctrl_num := by
  induction inputs generalizing c with
  | nil => rfl
  | cons r rs ih =>
    rw [run_rounds_cons, ih, (sequence_round_spec xp r.msg_out r.flags r.bus r.stale c).1,
      List.length_cons, Function.iterate_succ_apply]

/-- The pass condition of the round, for a transmitter other than device 2, is the pass
criterion. -/
theorem round_passes_iff (xp : xparameters) (msg_out : can_msg_t) (flags : irq_flags)
    (bus : Bus) (stale : Fin 4 → can_msg_t) (tx : Fin 4) :
    round_passes xp msg_out flags bus stale tx.val ↔
      pass_criterion xp msg_out flags bus stale tx := by
  unfold round_passes pass_criterion flag_read
  rw [dif_pos tx.isLt]
  constructor
  · rintro ⟨h, hr⟩
    refine ⟨h, fun i h2 hi => ?_⟩
    rcases hr i with e | e | e
    · exact absurd e h2
    · exact absurd (Fin.ext e) hi
    · exact e
  · rintro ⟨h, hr⟩
    refine ⟨h, fun i => ?_⟩
    by_cases h2 : i.val = 2
    · exact Or.inl h2
    by_cases hi : i = tx
    · exact Or.inr (Or.inl (congrArg Fin.val hi))
    · exact Or.inr (Or.inr (hr i h2 hi))

/-- One round keeps the invariant of the tallies. -/
theorem sequence_round_invariant (xp : xparameters) (r : round_input) (c : sequence_counters)
    (k : Nat) (h : tally_invariant c k) :
    tally_invariant (sequence_round xp r.msg_out r.flags r.bus r.stale c).1 (k + 1) := by
  obtain ⟨hc, hs, ht, hr⟩ := h
  obtain ⟨a0, _, _, _, a4, a5, a6, a7, a8⟩ := sequence_round_spec xp r.msg_out r.flags r.bus r.stale c
  generalize (sequence_round xp r.msg_out r.flags r.bus r.stale c).1 = c2 at a0 a4 a5 a6 a7 a8 ⊢
  unfold tally_invariant
  refine ⟨?_, ?_, ?_, ?_⟩
  · rw [a0]
    rcases hc with e | e | e <;> rw [e] <;> decide
  · by_cases hp : round_passes xp r.msg_out r.flags r.bus r.stale c.can_ctrl_num
    · obtain ⟨e1, e2⟩ := a6 hp
      rw [e1, e2]
      unfold u32
      omega
    · obtain ⟨e1, e2⟩ := a7 hp
      rw [e1, e2]
      unfold u32
      omega
  · by_cases hp : flag_read r.flags.got_tx_done c.can_ctrl_num = 1
    · obtain ⟨e1, e2⟩ := a4 hp
      rw [e1, e2]
      unfold u32
      omega
    · obtain ⟨e1, e2⟩ := a5 hp
      rw [e1, e2]
      unfold u32
      omega
  · rcases hc with e | e | e <;> rw [e] at a8 <;> simp at a8 <;> omega

/-- The rounds keep the invariant of the tallies. -/
theorem run_rounds_invariant (xp : xparameters) (inputs : List round_input)
    (c : sequence_counters) (k : Nat) (h : tally_invariant c k) :
    tally_invariant (run_rounds xp inputs c) (k + inputs.length) := by
  induction inputs generalizing c k with
  | nil => exact h
  | cons r rs ih =>
    have e : k + (r :: rs).length = (k + 1) + rs.length := by
      simp only [List.length_cons]
      omega
    rw [e, run_rounds_cons]
    exact ih _ (k + 1) (sequence_round_invariant xp r c k h)

/-- A loop of stores `payload[i] = v i` over the indices below `n`, read back. -/
theorem for_n_store (n : Nat) (v : Nat → Nat) (p : Fin 8 → Nat) (j : Fin 8) :
    for_n n (fun i p => payload_store p i (v i)) p j = if j.val < n then v j.val else p j := by
  induction n with
  | zero => simp [for_n]
  | succ n ih =>
    have e : for_n (n + 1) (fun i p => payload_store p i (v i)) p =
        payload_store (for_n n (fun i p => payload_store p i (v i)) p) n (v n) := by
      simp only [for_n, List.range_succ, List.foldl_append, List.foldl_cons, List.foldl_nil]
    rw [e]
    show (if j.val = n then v n else for_n n (fun i p => payload_store p i (v i)) p j) = _
    by_cases hj : j.val = n
    · rw [if_pos hj, if_pos (by omega), hj]
    · rw [if_neg hj, ih]
      by_cases hlt : j.val < n
      · rw [if_pos hlt, if_pos (by omega)]
      · rw [if_neg hlt, if_neg (by omega)]

/-- The payload of a generated frame: the bytes below the length are written, zero for a
remote request and a value below 256 otherwise; the bytes from the length on keep the
initial content of the local. -/
theorem generate_payload (rand : Nat → Nat) (msg_out : can_msg_t) (j : Fin 8) :
    (canola_generate_rand_msg rand msg_out).payload j =
      if j.val < (canola_generate_rand_msg rand msg_out).data_length then
        (if (canola_generate_rand_msg rand msg_out).remote_frame = true then 0
          else rand (5 + j.val) % 256)
      else msg_out.payload j := by
  have e : (fun (i : Nat) (p : Fin 8 → Nat) =>
        if i ≥ u8 (rand 4 % 9) ∨ decide (rand 3 % 2 = 1) = true then payload_store p i 0
        else payload_store p i (u8 (rand (5 + i) % 256))) =
      (fun (i : Nat) (p : Fin 8 → Nat) =>
        payload_store p i
          (if i ≥ u8 (rand 4 % 9) ∨ decide (rand 3 % 2 = 1) = true then 0
            else u8 (rand (5 + i) % 256))) := by
    funext i p
    split_ifs <;> rfl
  show for_n (u8 (rand 4 % 9)) _ msg_out.payload j = _
  rw [e, for_n_store]
  show _ = if j.val < u8 (rand 4 % 9) then
    (if decide (rand 3 % 2 = 1) = true then 0 else rand (5 + j.val) % 256) else msg_out.payload j
  by_cases hj : j.val < u8 (rand 4 % 9)
  · rw [if_pos hj, if_pos hj]
    by_cases hr : decide (rand 3 % 2 = 1) = true
    · rw [if_pos (Or.inr hr), if_pos hr]
    · rw [if_neg (not_or.mpr ⟨by omega, hr⟩), if_neg hr]
      unfold u8
      omega
  · rw [if_neg hj, if_neg hj]

/-- The identifiers and the length of a generated frame. -/
theorem generate_fields (rand : Nat → Nat) (msg_out : can_msg_t) :
    (canola_generate_rand_msg rand msg_out).arb_id_a = rand 0 % 2048 ∧
      (canola_generate_rand_msg rand msg_out).arb_id_b = rand 1 % 262144 ∧
      (canola_generate_rand_msg rand msg_out).data_length = rand 4 % 9 := by
  refine ⟨?_, ?_, ?_⟩
  · show u32 (rand 0 % 2048) = _
    unfold u32
    omega
  · show u32 (rand 1 % 262144) = _
    unfold u32
    omega
  · show u8 (rand 4 % 9) = _
    unfold u8
    omega

/-- Decoding the four words written for a frame gives the normalised frame. -/
theorem decode_encode (stale f : can_msg_t) (ha : f.arb_id_a < 2 ^ 11)
    (hb : f.arb_id_b < 2 ^ 18) (hl : f.data_length ≤ 8) (hp : ∀ i : Fin 8, f.payload i < 2 ^ 8) :
    canola_get_msg_decode stale (canola_tx_msg_id_reg f) f.data_length (canola_tx_payload_0_reg f)
      (canola_tx_payload_1_reg f) = norm f := by
  have hv := tx_msg_id_val f ha hb
  have hlen : f.data_length % 2 ^ 8 = f.data_length := Nat.mod_eq_of_lt (by omega)
  have hrtr : (canola_tx_msg_id_reg f / 2 % 2 = 1) ↔ f.remote_frame = true := by
    rw [hv]
    cases f.remote_frame <;> cases f.ext_id <;> simp <;> omega
  have hext : (canola_tx_msg_id_reg f % 2 = 1) ↔ f.ext_id = true := by
    rw [hv]
    cases f.remote_frame <;> cases f.ext_id <;> simp <;> omega
  apply can_msg_t.ext
  · rw [decode_arb_id_a, hv]
    simp only [norm]
    split_ifs <;> omega
  · rw [decode_arb_id_b]
    simp only [norm, hext]
    cases f.ext_id
    · simp
    · simp only [if_true]
      rw [hv]
      split_ifs <;> omega
  · rw [decode_remote_frame]
    simp only [norm, hrtr]
    cases f.remote_frame <;> simp
  · rw [decode_ext_id]
    simp only [norm, hext]
    cases f.ext_id <;> simp
  · funext i
    rw [decode_payload, hlen, tx_payload_byte f hp i]
    simp only [norm, hrtr]
    cases f.remote_frame <;> simp
  · rw [decode_data_length, hlen]
    rfl

/-- A frame compares equal to its normalisation. -/
theorem compare_norm (f : can_msg_t) : (canola_compare_messages f (norm f)).1 = true := by
  rw [compare_true_iff]
  refine ⟨rfl, rfl, fun h => ?_, rfl, rfl, fun hr i hi => ?_⟩
  · simp only [norm, h, if_true]
  · simp only [norm, hr, Bool.false_eq_true, if_false]
    rw [if_neg (by omega)]

/-- The register accesses `canola_get_msg` makes. -/
theorem get_msg_log (xp : xparameters) (id : Nat) (stale : can_msg_t) (bus : Bus) :
    (canola_get_msg xp id stale bus).2.log =
      bus.log ++
        [BusOp.rd (canola_get_base_addr xp id + 0x6C),
          BusOp.rd (canola_get_base_addr xp id + 0x70),
          BusOp.rd (canola_get_base_addr xp id + 0x74),
          BusOp.rd (canola_get_base_addr xp id + 0x78)] := by
  simp [canola_get_msg, Xil_In32, RX_MSG_ID_OFFSET, RX_PAYLOAD_LENGTH_OFFSET,
    RX_PAYLOAD_0_OFFSET, RX_PAYLOAD_1_OFFSET]

/-- The register accesses `canola_send_msg` makes. -/
theorem send_msg_log (xp : xparameters) (id : Nat) (msg : can_msg_t) (bus : Bus) :
    (canola_send_msg xp id msg bus).log =
      bus.log ++
        [BusOp.wr (canola_get_base_addr xp id + 0x5C) (canola_tx_msg_id_reg msg),
          BusOp.wr (canola_get_base_addr xp id + 0x64) (canola_tx_payload_0_reg msg),
          BusOp.wr (canola_get_base_addr xp id + 0x68) (canola_tx_payload_1_reg msg),
          BusOp.wr (canola_get_base_addr xp id + 0x60) msg.data_length,
          BusOp.wr (canola_get_base_addr xp id + 0x04) 1] := by
  simp [canola_send_msg, Xil_Out32, TX_MSG_ID_OFFSET, TX_PAYLOAD_0_OFFSET, TX_PAYLOAD_1_OFFSET,
    TX_PAYLOAD_LENGTH_OFFSET, CONTROL_OFFSET, CONTROL_TX_START_OFFSET]

/-- No case of the `switch` applies to a device number of 4 or more. -/
theorem get_base_addr_out_of_range (xp : xparameters) (id : Nat) (h : 4 ≤ id) :
    canola_get_base_addr xp id = 0 := by
  unfold canola_get_base_addr
  split <;> omega

/-- The rx-valid counter is the same after the rounds. -/
theorem run_rounds_rx_msg_count (xp : xparameters) (inputs : List round_input)
    (c : sequence_counters) :
    (run_rounds xp inputs c).rx_msg_count = c.rx_msg_count := by
  induction inputs generalizing c with
  | nil => rfl
  | cons r rs ih =>
    rw [run_rounds_cons, ih, (sequence_round_spec xp r.msg_out r.flags r.bus r.stale c).2.1]

/-! ## The claims -/

/-- C1: round trip. For every frame whose identifiers fit their fields and whose length is
at most eight, when the RX registers of a device hold the four words `canola_send_msg`
left in the TX message-ID, payload-0, payload-1 and payload-length registers,
`canola_get_msg` returns the normalised frame, whatever its local held before. -/
theorem C1_round_trip (xp : xparameters) (tx rx : Nat) (f stale : can_msg_t) (bus0 bus : Bus)
    (ha : f.arb_id_a < 2 ^ 11) (hb : f.arb_id_b < 2 ^ 18) (hl : f.data_length ≤ 8)
    (hp : ∀ i : Fin 8, f.payload i < 2 ^ 8)
    (h_id : bus.mem (canola_get_base_addr xp rx + 0x6C) =
      (canola_send_msg xp tx f bus0).mem (canola_get_base_addr xp tx + 0x5C))
    (h_p0 : bus.mem (canola_get_base_addr xp rx + 0x74) =
      (canola_send_msg xp tx f bus0).mem (canola_get_base_addr xp tx + 0x64))
    (h_p1 : bus.mem (canola_get_base_addr xp rx + 0x78) =
      (canola_send_msg xp tx f bus0).mem (canola_get_base_addr xp tx + 0x68))
    (h_len : bus.mem (canola_get_base_addr xp rx + 0x70) =
      (canola_send_msg xp tx f bus0).mem (canola_get_base_addr xp tx + 0x60)) :
    (canola_get_msg xp rx stale bus).1 = norm f := by
  rw [get_msg_fst, h_id, h_p0, h_p1, h_len, send_mem_msg_id, send_mem_payload_0,
    send_mem_payload_1, send_mem_payload_length]
  have hv := tx_msg_id_val f ha hb
  have hlen : f.data_length % 2 ^ 8 = f.data_length := Nat.mod_eq_of_lt (by omega)
  have hrtr : (canola_tx_msg_id_reg f / 2 % 2 = 1) ↔ f.remote_frame = true := by
    rw [hv]
    cases f.remote_frame <;> cases f.ext_id <;> simp <;> omega
  have hext : (canola_tx_msg_id_reg f % 2 = 1) ↔ f.ext_id = true := by
    rw [hv]
    cases f.remote_frame <;> cases f.ext_id <;> simp <;> omega
  apply can_msg_t.ext
  · rw [decode_arb_id_a, hv]
    simp only [norm]
    split_ifs <;> omega
  · rw [decode_arb_id_b]
    simp only [norm, hext]
    cases f.ext_id
    · simp
    · simp only [if_true]
      rw [hv]
      split_ifs <;> omega
  · rw [decode_remote_frame]
    simp only [norm, hrtr]
    cases f.remote_frame <;> simp
  · rw [decode_ext_id]
    simp only [norm, hext]
    cases f.ext_id <;> simp
  · funext i
    rw [decode_payload, hlen, tx_payload_byte f hp i]
    simp only [norm, hrtr]
    cases f.remote_frame <;> simp
  · rw [decode_data_length, hlen]
    rfl

/-- The round trip of the remote request `msg_remote` and of `msg_out_0`, sent on device 0
and received on device 1 into a local that holds the stale bytes `0xFF`: the remote request
comes back with the payload cleared. -/
theorem C1_round_trip_witness :
    (canola_get_msg xp_sample 1 msg_stale
        (bus_carry xp_sample 0 1 (canola_send_msg xp_sample 0 msg_remote bus_reset))).1 =
        norm msg_remote ∧
      (canola_get_msg xp_sample 1 msg_stale
        (bus_carry xp_sample 0 1 (canola_send_msg xp_sample 0 msg_out_0 bus_reset))).1 =
        norm msg_out_0 ∧
      (norm msg_remote).payload 0 = 0 ∧ msg_remote.payload 0 = 0xAA ∧
      msg_stale.payload 0 = 0xFF :=
  ⟨C1_round_trip xp_sample 0 1 msg_remote msg_stale bus_reset
      (bus_carry xp_sample 0 1 (canola_send_msg xp_sample 0 msg_remote bus_reset))
      (by decide) (by decide) (by decide) (by decide) (by decide) (by decide) (by decide)
      (by decide),
    C1_round_trip xp_sample 0 1 msg_out_0 msg_stale bus_reset
      (bus_carry xp_sample 0 1 (canola_send_msg xp_sample 0 msg_out_0 bus_reset))
      (by decide) (by decide) (by decide) (by decide) (by decide) (by decide) (by decide)
      (by decide),
    by decide, by decide, by decide⟩

/-- C2: for a frame whose identifiers fit their fields, the word `canola_send_msg` writes to
the TX message-ID register is `(arb_id_a << 20) | (arb_id_b << 2) | ext_id | (remote_frame
<< 1)`: bits 20..30 hold `arb_id_a`, bits 2..19 hold `arb_id_b` whether or not the frame is
extended, bit 0 is `ext_id`, bit 1 is `remote_frame` and bit 31 is zero. -/
theorem C2_tx_msg_id_layout (xp : xparameters) (id : Nat) (msg : can_msg_t) (bus : Bus)
    (ha : msg.arb_id_a < 2 ^ 11) (hb : msg.arb_id_b < 2 ^ 18) :
    (canola_send_msg xp id msg bus).mem (canola_get_base_addr xp id + 0x5C) =
        (msg.arb_id_a <<< 20 ||| msg.arb_id_b <<< 2 ||| (if msg.ext_id then 1 else 0) |||
          (if msg.remote_frame then 2 else 0)) ∧
      (canola_send_msg xp id msg bus).mem (canola_get_base_addr xp id + 0x5C) / 2 ^ 20 % 2 ^ 11 =
        msg.arb_id_a ∧
      (canola_send_msg xp id msg bus).mem (canola_get_base_addr xp id + 0x5C) / 2 ^ 2 % 2 ^ 18 =
        msg.arb_id_b ∧
      (canola_send_msg xp id msg bus).mem (canola_get_base_addr xp id + 0x5C) % 2 =
        (if msg.ext_id then 1 else 0) ∧
      (canola_send_msg xp id msg bus).mem (canola_get_base_addr xp id + 0x5C) / 2 % 2 =
        (if msg.remote_frame then 1 else 0) ∧
      (canola_send_msg xp id msg bus).mem (canola_get_base_addr xp id + 0x5C) / 2 ^ 31 = 0 := by
  rw [send_mem_msg_id]
  have hv := tx_msg_id_val msg ha hb
  refine ⟨?_, ?_, ?_, ?_, ?_, ?_⟩
  · have h1 : u32 (msg.arb_id_a <<< 20) = msg.arb_id_a <<< 20 := by
      unfold u32
      rw [Nat.shiftLeft_eq]
      exact Nat.mod_eq_of_lt (by omega)
    have h2 : u32 (msg.arb_id_b <<< 2) = msg.arb_id_b <<< 2 := by
      unfold u32
      rw [Nat.shiftLeft_eq]
      exact Nat.mod_eq_of_lt (by omega)
    simp only [canola_tx_msg_id_reg, TX_MSG_ID_ARB_ID_A_OFFSET, TX_MSG_ID_ARB_ID_B_OFFSET,
      TX_MSG_ID_EXT_ID_EN_OFFSET, TX_MSG_ID_RTR_EN_OFFSET, h1, h2]
    cases msg.ext_id <;> cases msg.remote_frame <;> simp
  · rw [hv]
    split_ifs <;> omega
  · rw [hv]
    split_ifs <;> omega
  · rw [hv]
    split_ifs <;> omega
  · rw [hv]
    split_ifs <;> omega
  · rw [hv]
    split_ifs <;> omega

/-- The concrete example: base identifier `0x7FF`, not extended, not remote, gives bits 20..30
equal to `0x7FF` and bits 0..1 equal to zero. -/
theorem C2_tx_msg_id_layout_witness :
    (canola_send_msg xp_sample 0 msg_7ff bus_reset).mem
        (canola_get_base_addr xp_sample 0 + 0x5C) / 2 ^ 20 % 2 ^ 11 = 0x7FF ∧
      (canola_send_msg xp_sample 0 msg_7ff bus_reset).mem
        (canola_get_base_addr xp_sample 0 + 0x5C) % 2 = 0 ∧
      (canola_send_msg xp_sample 0 msg_7ff bus_reset).mem
        (canola_get_base_addr xp_sample 0 + 0x5C) / 2 % 2 = 0 :=
  have h := C2_tx_msg_id_layout xp_sample 0 msg_7ff bus_reset (by decide) (by decide)
  ⟨h.2.1, h.2.2.2.1, h.2.2.2.2.1⟩

/-- C3: for every frame, whatever its length and remote flag, the word written to TX payload 0
holds payload byte `i` at bits `8i..8i+7` for `i = 0..3` and the word written to TX payload 1
holds payload byte `4 + i` there; both are 32-bit words determined by the payload bytes
alone. -/
theorem C3_tx_payload_layout (xp : xparameters) (id : Nat) (msg : can_msg_t) (bus : Bus)
    (hp : ∀ i : Fin 8, msg.payload i < 2 ^ 8) :
    (∀ i : Fin 8,
        (if i.val / 4 = 0 then
            (canola_send_msg xp id msg bus).mem (canola_get_base_addr xp id + 0x64)
          else (canola_send_msg xp id msg bus).mem (canola_get_base_addr xp id + 0x68)) /
            2 ^ (8 * (i.val % 4)) % 2 ^ 8 = msg.payload i) ∧
      (canola_send_msg xp id msg bus).mem (canola_get_base_addr xp id + 0x64) =
        msg.payload 0 + msg.payload 1 * 2 ^ 8 + msg.payload 2 * 2 ^ 16 +
          msg.payload 3 * 2 ^ 24 ∧
      (canola_send_msg xp id msg bus).mem (canola_get_base_addr xp id + 0x68) =
        msg.payload 4 + msg.payload 5 * 2 ^ 8 + msg.payload 6 * 2 ^ 16 +
          msg.payload 7 * 2 ^ 24 ∧
      (canola_send_msg xp id msg bus).mem (canola_get_base_addr xp id + 0x64) < 2 ^ 32 ∧
      (canola_send_msg xp id msg bus).mem (canola_get_base_addr xp id + 0x68) < 2 ^ 32 := by
  rw [send_mem_payload_0, send_mem_payload_1]
  refine ⟨tx_payload_byte msg hp, ?_, ?_, ?_, ?_⟩
  · exact pack4_val _ _ _ _ (hp 0) (hp 1) (hp 2) (hp 3)
  · exact pack4_val _ _ _ _ (hp 4) (hp 5) (hp 6) (hp 7)
  · exact Nat.mod_lt _ (by decide)
  · exact Nat.mod_lt _ (by decide)

/-- The concrete example: a payload starting `0xAA, 0xBB` gives `0xBBAA` in the low 16 bits of
TX payload 0, although the length of the frame is 2. -/
theorem C3_tx_payload_layout_witness :
    (canola_send_msg xp_sample 0 msg_7ff bus_reset).mem
        (canola_get_base_addr xp_sample 0 + 0x64) % 2 ^ 16 = 0xBBAA :=
  have h := C3_tx_payload_layout xp_sample 0 msg_7ff bus_reset (by decide)
  by rw [h.2.1]; decide

/-- C4: for every value `r` of the RX message-ID register, `canola_get_msg` returns
`arb_id_a` equal to bits 20..30 of `r`, `ext_id` equal to bit 0 of `r`, and `arb_id_b` equal
to bits 2..19 of `r` when bit 0 is set and to zero when it is clear. -/
theorem C4_get_msg_identifiers (xp : xparameters) (id : Nat) (stale : can_msg_t) (bus : Bus) :
    (canola_get_msg xp id stale bus).1.arb_id_a =
        bus.mem (canola_get_base_addr xp id + 0x6C) / 2 ^ 20 % 2 ^ 11 ∧
      (canola_get_msg xp id stale bus).1.ext_id =
        decide (bus.mem (canola_get_base_addr xp id + 0x6C) % 2 = 1) ∧
      (canola_get_msg xp id stale bus).1.arb_id_b =
        (if bus.mem (canola_get_base_addr xp id + 0x6C) % 2 = 1 then
          bus.mem (canola_get_base_addr xp id + 0x6C) / 2 ^ 2 % 2 ^ 18
        else 0) := by
  rw [get_msg_fst]
  exact ⟨decode_arb_id_a _ _ _ _ _, decode_ext_id _ _ _ _ _, decode_arb_id_b _ _ _ _ _⟩

/-- C5: for every content of the RX registers and every index `i`, the payload byte `i`
returned by `canola_get_msg` is zero if bit 1 of the message-ID register is set or if `i` is
at or beyond the returned length, and otherwise is bits `8 (i mod 4) .. 8 (i mod 4) + 7` of
payload register `i div 4`, whatever the local of the function held before; a remote frame
decodes to an all-zero payload. -/
theorem C5_get_msg_payload (xp : xparameters) (id : Nat) (stale : can_msg_t) (bus : Bus) :
    (∀ i : Fin 8,
        (canola_get_msg xp id stale bus).1.payload i =
          if bus.mem (canola_get_base_addr xp id + 0x6C) / 2 % 2 = 1 ∨
              (canola_get_msg xp id stale bus).1.data_length ≤ i.val then 0
          else
            (if i.val / 4 = 0 then bus.mem (canola_get_base_addr xp id + 0x74)
              else bus.mem (canola_get_base_addr xp id + 0x78)) /
                2 ^ (8 * (i.val % 4)) % 2 ^ 8) ∧
      (bus.mem (canola_get_base_addr xp id + 0x6C) / 2 % 2 = 1 →
        (canola_get_msg xp id stale bus).1.remote_frame = true ∧
          ∀ i : Fin 8, (canola_get_msg xp id stale bus).1.payload i = 0) := by
  rw [get_msg_fst]
  refine ⟨fun i => ?_, fun h => ⟨?_, fun i => ?_⟩⟩
  · rw [decode_payload, decode_data_length]
  · rw [decode_remote_frame]
    simpa using h
  · rw [decode_payload, if_pos (Or.inl h)]

/-- A remote frame read into a local that holds the stale bytes `0xFF`, with payload
registers that are not zero: every payload byte returned is 0. -/
theorem C5_get_msg_payload_witness :
    bus_rx_remote.mem (canola_get_base_addr xp_sample 0 + 0x6C) / 2 % 2 = 1 ∧
      ((canola_get_msg xp_sample 0 msg_stale bus_rx_remote).1.remote_frame = true ∧
        ∀ i : Fin 8, (canola_get_msg xp_sample 0 msg_stale bus_rx_remote).1.payload i = 0) ∧
      (∀ i : Fin 8, msg_stale.payload i = 0xFF) ∧
      bus_rx_remote.mem (canola_get_base_addr xp_sample 0 + 0x74) = 0x44332211 :=
  ⟨by decide, (C5_get_msg_payload xp_sample 0 msg_stale bus_rx_remote).2 (by decide),
    by decide, by decide⟩

/-- C6, as the code has it: the returned `data_length` is the value of the RX payload-length
register reduced modulo `2 ^ 8`, the width of the `uint8_t` field; it is the register value
itself, unclamped, for every value below 256. -/
theorem C6_get_msg_length (xp : xparameters) (id : Nat) (stale : can_msg_t) (bus : Bus) :
    (canola_get_msg xp id stale bus).1.data_length =
        bus.mem (canola_get_base_addr xp id + 0x70) % 2 ^ 8 ∧
      (bus.mem (canola_get_base_addr xp id + 0x70) < 2 ^ 8 →
        (canola_get_msg xp id stale bus).1.data_length =
          bus.mem (canola_get_base_addr xp id + 0x70)) := by
  rw [get_msg_fst, decode_data_length]
  exact ⟨rfl, fun h => Nat.mod_eq_of_lt h⟩

/-- C6 fails as stated: with 256 in the RX payload-length register of device 0 the returned
`data_length` is 0, not 256. -/
theorem C6_get_msg_length_counterexample :
    bus_rx_length_256.mem (canola_get_base_addr xp_sample 0 + 0x70) = 256 ∧
      (canola_get_msg xp_sample 0 msg_stale bus_rx_length_256).1.data_length = 0 ∧
      (canola_get_msg xp_sample 0 msg_stale bus_rx_length_256).1.data_length ≠
        bus_rx_length_256.mem (canola_get_base_addr xp_sample 0 + 0x70) := by
  decide

/-- C7, as the code has it: identifiers are truncated by the 32-bit register word only. The
word written to the TX message-ID register is the one written for the frame with `arb_id_a`
reduced modulo `2 ^ 12` and `arb_id_b` reduced modulo `2 ^ 30`; bits 0..1 are the two flags
and bits 2..19 are `arb_id_b` modulo `2 ^ 18` whatever the identifiers; bits 20..31 are
`arb_id_a` modulo `2 ^ 12` or-ed with bits 18..29 of `arb_id_b`. -/
theorem C7_tx_msg_id_oversized (xp : xparameters) (id : Nat) (msg : can_msg_t) (bus : Bus) :
    (canola_send_msg xp id msg bus).mem (canola_get_base_addr xp id + 0x5C) =
        (canola_send_msg xp id
          { msg with
            arb_id_a := msg.arb_id_a % 2 ^ 12
            arb_id_b := msg.arb_id_b % 2 ^ 30 } bus).mem
          (canola_get_base_addr xp id + 0x5C) ∧
      (canola_send_msg xp id msg bus).mem (canola_get_base_addr xp id + 0x5C) % 2 ^ 2 =
        (if msg.ext_id then 1 else 0) + (if msg.remote_frame then 2 else 0) ∧
      (canola_send_msg xp id msg bus).mem (canola_get_base_addr xp id + 0x5C) / 2 ^ 2 % 2 ^ 18 =
        msg.arb_id_b % 2 ^ 18 ∧
      (canola_send_msg xp id msg bus).mem (canola_get_base_addr xp id + 0x5C) / 2 ^ 20 =
        (msg.arb_id_a % 2 ^ 12 ||| msg.arb_id_b / 2 ^ 18 % 2 ^ 12) := by
  rw [send_mem_msg_id, send_mem_msg_id]
  have ea : u32 (msg.arb_id_a <<< 20) = msg.arb_id_a % 2 ^ 12 * 2 ^ 20 := by
    unfold u32
    rw [Nat.shiftLeft_eq]
    omega
  have eb : u32 (msg.arb_id_b <<< 2) = msg.arb_id_b % 2 ^ 30 * 2 ^ 2 := by
    unfold u32
    rw [Nat.shiftLeft_eq]
    omega
  have ea2 : u32 ((msg.arb_id_a % 2 ^ 12) <<< 20) = msg.arb_id_a % 2 ^ 12 * 2 ^ 20 := by
    unfold u32
    rw [Nat.shiftLeft_eq]
    omega
  have eb2 : u32 ((msg.arb_id_b % 2 ^ 30) <<< 2) = msg.arb_id_b % 2 ^ 30 * 2 ^ 2 := by
    unfold u32
    rw [Nat.shiftLeft_eq]
    omega
  rw [tx_msg_id_or, tx_msg_id_or]
  simp only [ea, eb, ea2, eb2]
  refine ⟨trivial, ?_, ?_, ?_⟩
  · simp only [or_mod_two_pow]
    have h1 : msg.arb_id_a % 2 ^ 12 * 2 ^ 20 % 2 ^ 2 = 0 := by omega
    have h2 : msg.arb_id_b % 2 ^ 30 * 2 ^ 2 % 2 ^ 2 = 0 := by omega
    rw [h1, h2]
    cases msg.ext_id <;> cases msg.remote_frame <;> simp
  · simp only [or_div_two_pow, or_mod_two_pow]
    have h1 : msg.arb_id_a % 2 ^ 12 * 2 ^ 20 / 2 ^ 2 % 2 ^ 18 = 0 := by omega
    have h2 : msg.arb_id_b % 2 ^ 30 * 2 ^ 2 / 2 ^ 2 % 2 ^ 18 = msg.arb_id_b % 2 ^ 18 := by omega
    rw [h1, h2]
    cases msg.ext_id <;> cases msg.remote_frame <;> simp
  · simp only [or_div_two_pow]
    have h1 : msg.arb_id_a % 2 ^ 12 * 2 ^ 20 / 2 ^ 20 = msg.arb_id_a % 2 ^ 12 := by omega
    have h2 : msg.arb_id_b % 2 ^ 30 * 2 ^ 2 / 2 ^ 20 = msg.arb_id_b / 2 ^ 18 % 2 ^ 12 := by omega
    rw [h1, h2]
    cases msg.ext_id <;> cases msg.remote_frame <;> simp

/-- C7 fails as stated: the base identifier `0x800` sets bit 31, outside bits 20..30, and the
word differs from the one written for the identifier reduced modulo `2 ^ 11`; the extension
identifier `0x40000` sets bit 20, inside the base-identifier field. -/
theorem C7_tx_msg_id_oversized_counterexample :
    (canola_send_msg xp_sample 0 msg_base_oversized bus_reset).mem
        (canola_get_base_addr xp_sample 0 + 0x5C) ≠
      (canola_send_msg xp_sample 0
        { msg_base_oversized with
          arb_id_a := msg_base_oversized.arb_id_a % 2 ^ 11
          arb_id_b := msg_base_oversized.arb_id_b % 2 ^ 18 } bus_reset).mem
        (canola_get_base_addr xp_sample 0 + 0x5C) ∧
      (canola_send_msg xp_sample 0 msg_base_oversized bus_reset).mem
        (canola_get_base_addr xp_sample 0 + 0x5C) = 0x80000000 ∧
      (canola_send_msg xp_sample 0 msg_ext_oversized bus_reset).mem
        (canola_get_base_addr xp_sample 0 + 0x5C) ≠
      (canola_send_msg xp_sample 0
        { msg_ext_oversized with
          arb_id_a := msg_ext_oversized.arb_id_a % 2 ^ 11
          arb_id_b := msg_ext_oversized.arb_id_b % 2 ^ 18 } bus_reset).mem
        (canola_get_base_addr xp_sample 0 + 0x5C) ∧
      (canola_send_msg xp_sample 0 msg_ext_oversized bus_reset).mem
        (canola_get_base_addr xp_sample 0 + 0x5C) = 0x00100001 := by
  decide

/-- C8: `canola_send_msg` makes exactly five register accesses, all writes, in this order:
message-ID at base + 0x5C, payload 0 at base + 0x64, payload 1 at base + 0x68, length at
base + 0x60 with value `data_length` whatever the remote flag, and last the control register
at base + 0x04 with value 1; the base is the address of the device for the devices 0..3. -/
theorem C8_send_msg_writes (xp : xparameters) (id : Nat) (msg : can_msg_t) (bus : Bus) :
    (canola_send_msg xp id msg bus).log =
        bus.log ++
          [BusOp.wr (canola_get_base_addr xp id + 0x5C) (canola_tx_msg_id_reg msg),
            BusOp.wr (canola_get_base_addr xp id + 0x64) (canola_tx_payload_0_reg msg),
            BusOp.wr (canola_get_base_addr xp id + 0x68) (canola_tx_payload_1_reg msg),
            BusOp.wr (canola_get_base_addr xp id + 0x60) msg.data_length,
            BusOp.wr (canola_get_base_addr xp id + 0x04) 1] ∧
      canola_get_base_addr xp 0 = xp.XPAR_CANOLA_AXI_SLAVE_0_BASEADDR ∧
      canola_get_base_addr xp 1 = xp.XPAR_CANOLA_AXI_SLAVE_1_BASEADDR ∧
      canola_get_base_addr xp 2 = xp.XPAR_CANOLA_AXI_SLAVE_2_BASEADDR ∧
      canola_get_base_addr xp 3 = xp.XPAR_CANOLA_AXI_SLAVE_3_BASEADDR := by
  refine ⟨?_, rfl, rfl, rfl, rfl⟩
  simp [canola_send_msg, Xil_Out32, TX_MSG_ID_OFFSET, TX_PAYLOAD_0_OFFSET, TX_PAYLOAD_1_OFFSET,
    TX_PAYLOAD_LENGTH_OFFSET, CONTROL_OFFSET, CONTROL_TX_START_OFFSET]

/-- C9: mismatch detection. For frames that are not remote requests and agree in both
identifiers, the extended flag and the length, if the payloads differ at some index below
the length then `canola_compare_messages` returns false and the line it prints names the
least such index. -/
theorem C9_mismatch_detection (m1 m2 : can_msg_t) (ha : m1.arb_id_a = m2.arb_id_a)
    (he : m1.ext_id = m2.ext_id) (hb : m1.arb_id_b = m2.arb_id_b)
    (hr1 : m1.remote_frame = false) (hr2 : m2.remote_frame = false)
    (hl : m1.data_length = m2.data_length)
    (hd : ∃ i : Fin 8, i.val < m1.data_length ∧ m1.payload i ≠ m2.payload i) :
    ∃ j : Fin 8,
      canola_compare_messages m1 m2 =
          (false, [Mismatch.payload j.val (m1.payload j) (m2.payload j)]) ∧
        j.val < m1.data_length ∧ m1.payload j ≠ m2.payload j ∧
        ∀ k : Fin 8, k.val < m1.data_length → m1.payload k ≠ m2.payload k → j ≤ k := by
  have hr : m1.remote_frame = m2.remote_frame := by rw [hr1, hr2]
  rcases compare_payload_cases m1 m2 with ⟨j, hc, hmin, hs⟩ | ⟨hn, _⟩
  · refine ⟨j, ?_, hc.1, hc.2, fun k hk hne => ?_⟩
    · unfold canola_compare_messages
      rw [if_neg (not_not.mpr ha), if_neg (not_not.mpr he),
        if_neg (fun h => h.2 hb), if_neg (not_not.mpr hr), if_neg (not_not.mpr hl),
        if_pos hr1, hs]
    · by_contra hlt
      exact hmin k (lt_of_not_le hlt) ⟨hk, hne⟩
  · obtain ⟨i, hi⟩ := hd
    exact absurd hi (hn i)

/-- The example of the specification: `msg_out_0` against the same frame with payload byte 3
changed from `0x44` to `0x40` gives false and the line for index 3. -/
theorem C9_mismatch_detection_witness :
    (∃ j : Fin 8,
      canola_compare_messages msg_out_0 msg_out_0_byte3 =
          (false, [Mismatch.payload j.val (msg_out_0.payload j) (msg_out_0_byte3.payload j)]) ∧
        j.val < msg_out_0.data_length ∧ msg_out_0.payload j ≠ msg_out_0_byte3.payload j ∧
        ∀ k : Fin 8, k.val < msg_out_0.data_length →
          msg_out_0.payload k ≠ msg_out_0_byte3.payload k → j ≤ k) ∧
      canola_compare_messages msg_out_0 msg_out_0_byte3 =
        (false, [Mismatch.payload 3 0x44 0x40]) :=
  ⟨C9_mismatch_detection msg_out_0 msg_out_0_byte3 rfl rfl rfl rfl rfl rfl
    ⟨3, by decide, by decide⟩, by decide⟩

/-- C10: for two frames that satisfy the CanFrame invariant, `canola_compare_messages` returns
true exactly when the frames are equal in every field. -/
theorem C10_compare_iff_eq (m1 m2 : can_msg_t) (h1 : CanFrame_invariant m1)
    (h2 : CanFrame_invariant m2) :
    (canola_compare_messages m1 m2).1 = true ↔ m1 = m2 := by
  rw [compare_true_iff]
  constructor
  · rintro ⟨ha, he, hb, hr, hl, hp⟩
    obtain ⟨_, hb1, hr1, hz1⟩ := h1
    obtain ⟨_, hb2, hr2, hz2⟩ := h2
    apply can_msg_t.ext
    · exact ha
    · cases hext : m1.ext_id
      · rw [hb1 hext, hb2 (he ▸ hext)]
      · exact hb hext
    · exact hr
    · exact he
    · funext i
      cases hrf : m1.remote_frame
      · by_cases hi : i.val < m1.data_length
        · exact hp hrf i hi
        · rw [hz1 i (by omega), hz2 i (by omega)]
      · rw [hr1 hrf i, hr2 (hr ▸ hrf) i]
    · exact hl
  · rintro rfl
    exact ⟨rfl, rfl, fun _ => rfl, rfl, rfl, fun _ _ _ => rfl⟩

/-- The frame `msg_out_0` and its variant with a changed byte both satisfy the invariant;
the comparison returns true exactly when they are equal. -/
theorem C10_compare_iff_eq_witness :
    (CanFrame_invariant msg_out_0 ∧ CanFrame_invariant msg_out_0_byte3) ∧
      ((canola_compare_messages msg_out_0 msg_out_0_byte3).1 = true ↔
        msg_out_0 = msg_out_0_byte3) :=
  ⟨⟨by decide, by decide⟩,
    C10_compare_iff_eq msg_out_0 msg_out_0_byte3 (by decide) (by decide)⟩

/-- C11: notification flag semantics. For every device below 4 and every flag table,
delivering the rx-valid signal twice gives the same table as delivering it once, with the
flag equal to 1, and likewise for tx-done; any positive number of signals gives the table of
one signal; after any number of signals one pass of the clearing loop leaves the flag 0; and
clearing the initial table, in which no flag was ever set, leaves the flags 0. -/
theorem C11_notification_flags (flags : irq_flags) (i : Fin 4) (n : Nat) :
    IrqRxValidHandler i.val (IrqRxValidHandler i.val flags) = IrqRxValidHandler i.val flags ∧
      (IrqRxValidHandler i.val flags).got_rx_msg i = 1 ∧
      IrqTxDoneHandler i.val (IrqTxDoneHandler i.val flags) = IrqTxDoneHandler i.val flags ∧
      (IrqTxDoneHandler i.val flags).got_tx_done i = 1 ∧
      Nat.iterate (IrqRxValidHandler i.val) (n + 1) flags = IrqRxValidHandler i.val flags ∧
      Nat.iterate (IrqTxDoneHandler i.val) (n + 1) flags = IrqTxDoneHandler i.val flags ∧
      (clear_irq_flags (Nat.iterate (IrqRxValidHandler i.val) n flags)).got_rx_msg i = 0 ∧
      (clear_irq_flags (Nat.iterate (IrqTxDoneHandler i.val) n flags)).got_tx_done i = 0 ∧
      (clear_irq_flags irq_flags_init).got_rx_msg i = 0 ∧
      (clear_irq_flags irq_flags_init).got_tx_done i = 0 ∧
      irq_flags_init.got_rx_msg i = 0 ∧ irq_flags_init.got_tx_done i = 0 := by
  refine ⟨IrqRxValidHandler_idem i flags, ?_, IrqTxDoneHandler_idem i flags, ?_,
    iterate_idem _ (IrqRxValidHandler_idem i) n flags,
    iterate_idem _ (IrqTxDoneHandler_idem i) n flags,
    clear_irq_flags_rx _ i, clear_irq_flags_tx _ i, clear_irq_flags_rx _ i,
    clear_irq_flags_tx _ i, rfl, rfl⟩
  · rw [IrqRxValidHandler_eq]
    simp
  · rw [IrqTxDoneHandler_eq]
    simp

/-- C12: round-robin fairness. After any number of rounds of `canola_sequence_send_test` the
transmitter index is the element of `[0, 1, 3]` at position (number of rounds) mod 3 and is
never 2; the advance iterated from 0 gives 0, 1, 3 at the rounds `3m`, `3m + 1`, `3m + 2`. -/
theorem C12_round_robin (xp : xparameters) (inputs : List round_input) (k m : Nat) :
    (run_rounds xp inputs sequence_counters_init).can_ctrl_num =
        [0, 1, 3].getD (inputs.length % 3) 0 ∧
      (run_rounds xp inputs sequence_counters_init).can_ctrl_num ≠ 2 ∧
      Nat.iterate advance_can_ctrl_num k 0 = [0, 1, 3].getD (k % 3) 0 ∧
      Nat.iterate advance_can_ctrl_num (3 * m) 0 = 0 ∧
      Nat.iterate advance_can_ctrl_num (3 * m + 1) 0 = 1 ∧
      Nat.iterate advance_can_ctrl_num (3 * m + 2) 0 = 3 ∧
      Nat.iterate advance_can_ctrl_num k 0 ≠ 2 := by
  have h3 : ∀ j : Nat, [0, 1, 3].getD (j % 3) 0 ≠ 2 := by
    intro j
    have hj : j % 3 < 3 := Nat.mod_lt _ (by decide)
    interval_cases (j % 3) <;> decide
  have e0 : (3 * m) % 3 = 0 := by omega
  have e1 : (3 * m + 1) % 3 = 1 := by omega
  have e2 : (3 * m + 2) % 3 = 2 := by omega
  refine ⟨?_, ?_, iterate_advance k, ?_, ?_, ?_, ?_⟩
  · rw [run_rounds_can_ctrl_num]
    exact iterate_advance _
  · rw [run_rounds_can_ctrl_num]
    show Nat.iterate advance_can_ctrl_num inputs.length 0 ≠ 2
    rw [iterate_advance]
    exact h3 _
  · rw [iterate_advance, e0]
    rfl
  · rw [iterate_advance, e1]
    rfl
  · rw [iterate_advance, e2]
    rfl
  · rw [iterate_advance]
    exact h3 _

/-- C13: every one of the 32 bitfields declared in the register map satisfies
`MASK = ((1 << WIDTH) - 1) << OFFSET`. -/
theorem C13_bitfield_masks : bitfields.length = 32 ∧
      ∀ f ∈ bitfields, f.mask = ((1 <<< f.width) - 1) <<< f.offset := by
  decide

/-- C14, as the code has it: `canola_print_status_regs` makes exactly eleven register
accesses, all reads, in this order: the status register at base + 0x00 and then the ten
statistics counters at base + 0x34, 0x38, ..., 0x58, each once; it writes no register and
leaves the register contents unchanged. -/
theorem C14_print_status_regs_reads (xp : xparameters) (id : Nat) (bus : Bus) :
    (canola_print_status_regs xp id bus).2.log =
        bus.log ++
          [BusOp.rd (canola_get_base_addr xp id + 0x00),
            BusOp.rd (canola_get_base_addr xp id + 0x34),
            BusOp.rd (canola_get_base_addr xp id + 0x38),
            BusOp.rd (canola_get_base_addr xp id + 0x3C),
            BusOp.rd (canola_get_base_addr xp id + 0x40),
            BusOp.rd (canola_get_base_addr xp id + 0x44),
            BusOp.rd (canola_get_base_addr xp id + 0x48),
            BusOp.rd (canola_get_base_addr xp id + 0x4C),
            BusOp.rd (canola_get_base_addr xp id + 0x50),
            BusOp.rd (canola_get_base_addr xp id + 0x54),
            BusOp.rd (canola_get_base_addr xp id + 0x58)] ∧
      (canola_print_status_regs xp id bus).2.mem = bus.mem := by
  constructor
  · simp [canola_print_status_regs, Xil_In32, STATUS_OFFSET, TRANSMIT_ERROR_COUNT_OFFSET,
      RECEIVE_ERROR_COUNT_OFFSET, TX_MSG_SENT_COUNT_OFFSET, TX_ACK_RECV_COUNT_OFFSET,
      TX_ARB_LOST_COUNT_OFFSET, TX_ERROR_COUNT_OFFSET, RX_MSG_RECV_COUNT_OFFSET,
      RX_CRC_ERROR_COUNT_OFFSET, RX_FORM_ERROR_COUNT_OFFSET, RX_STUFF_ERROR_COUNT_OFFSET]
  · rfl

/-- C14 fails as stated: on device 0 the dump makes eleven reads, of which the first is the
status register at offset 0x00 and ten, not eleven, are reads of the counters at the offsets
0x34 to 0x58. -/
theorem C14_print_status_regs_reads_counterexample :
    (canola_print_status_regs xp_sample 0 bus_reset).2.log.length = 11 ∧
      (canola_print_status_regs xp_sample 0 bus_reset).2.log.head? =
        some (BusOp.rd (canola_get_base_addr xp_sample 0 + 0x00)) ∧
      ((canola_print_status_regs xp_sample 0 bus_reset).2.log.filter
        (is_counter_read (canola_get_base_addr xp_sample 0))).length = 10 ∧
      ((canola_print_status_regs xp_sample 0 bus_reset).2.log.filter
        (is_counter_read (canola_get_base_addr xp_sample 0))).length ≠ 11 := by
  decide

/-- C15 fails on the code: the loop of `canola_generate_rand_msg` stops at `data_length`, so the
bytes from `data_length` on keep the prior content of the local. With `rand()` always 0 the
frame has length 0, is not remote and has payload byte 5 equal to the stale `0xFF`; for a
remote request of length 2 the bytes 0 and 1 are cleared and byte 2 is the stale `0xFF`. -/
theorem C15_generate_rand_msg_unwritten :
    (canola_generate_rand_msg (fun _ => 0) msg_stale).data_length = 0 ∧
      (canola_generate_rand_msg (fun _ => 0) msg_stale).remote_frame = false ∧
      (canola_generate_rand_msg (fun _ => 0) msg_stale).payload 5 = 0xFF ∧
      (canola_generate_rand_msg rand_remote msg_stale).data_length = 2 ∧
      (canola_generate_rand_msg rand_remote msg_stale).remote_frame = true ∧
      (canola_generate_rand_msg rand_remote msg_stale).payload 1 = 0 ∧
      (canola_generate_rand_msg rand_remote msg_stale).payload 2 = 0xFF := by
  decide

/-- C16: pass criterion of a round. With transmitter `tx`, the round counts a success when
the pass criterion holds (tx-done flag of `tx` equal to 1 and, for every receiver other than
device 2 and `tx`, a nonzero rx-valid flag and a received frame that compares equal to the
frame sent) and counts a failure otherwise; the outcome is the same for any other flags,
registers and stale locals that agree on the tx-done flag of `tx` and on the rx-valid flags
and RX registers of the receivers. -/
theorem C16_round_pass_criterion (xp : xparameters) (msg_out : can_msg_t) (flags : irq_flags)
    (bus : Bus) (stale : Fin 4 → can_msg_t) (c : sequence_counters) (tx : Fin 4)
    (htx : c.can_ctrl_num = tx.val) :
    (pass_criterion xp msg_out flags bus stale tx →
        (sequence_round xp msg_out flags bus stale c).1.success_count =
            u32 (c.success_count + 1) ∧
          (sequence_round xp msg_out flags bus stale c).1.fail_count = c.fail_count) ∧
      (¬ pass_criterion xp msg_out flags bus stale tx →
        (sequence_round xp msg_out flags bus stale c).1.success_count = c.success_count ∧
          (sequence_round xp msg_out flags bus stale c).1.fail_count =
            u32 (c.fail_count + 1)) ∧
      (∀ (flags2 : irq_flags) (bus2 : Bus) (stale2 : Fin 4 → can_msg_t),
        flags2.got_tx_done tx = flags.got_tx_done tx →
        (∀ i : Fin 4, i.val ≠ 2 → i ≠ tx →
          flags2.got_rx_msg i = flags.got_rx_msg i ∧
            bus2.mem (canola_get_base_addr xp i.val + 0x6C) =
              bus.mem (canola_get_base_addr xp i.val + 0x6C) ∧
            bus2.mem (canola_get_base_addr xp i.val + 0x70) =
              bus.mem (canola_get_base_addr xp i.val + 0x70) ∧
            bus2.mem (canola_get_base_addr xp i.val + 0x74) =
              bus.mem (canola_get_base_addr xp i.val + 0x74) ∧
            bus2.mem (canola_get_base_addr xp i.val + 0x78) =
              bus.mem (canola_get_base_addr xp i.val + 0x78)) →
        (sequence_round xp msg_out flags2 bus2 stale2 c).1.success_count =
            (sequence_round xp msg_out flags bus stale c).1.success_count ∧
          (sequence_round xp msg_out flags2 bus2 stale2 c).1.fail_count =
            (sequence_round xp msg_out flags bus stale c).1.fail_count) := by
  have key : ∀ (f : irq_flags) (b : Bus) (st : Fin 4 → can_msg_t),
      (pass_criterion xp msg_out f b st tx →
        (sequence_round xp msg_out f b st c).1.success_count = u32 (c.success_count + 1) ∧
          (sequence_round xp msg_out f b st c).1.fail_count = c.fail_count) ∧
      (¬ pass_criterion xp msg_out f b st tx →
        (sequence_round xp msg_out f b st c).1.success_count = c.success_count ∧
          (sequence_round xp msg_out f b st c).1.fail_count = u32 (c.fail_count + 1)) := by
    intro f b st
    obtain ⟨_, _, _, _, _, _, a6, a7, _⟩ := sequence_round_spec xp msg_out f b st c
    rw [htx, round_passes_iff] at a6 a7
    exact ⟨a6, a7⟩
  refine ⟨(key flags bus stale).1, (key flags bus stale).2, fun flags2 bus2 stale2 hd hr => ?_⟩
  have hg : ∀ i : Fin 4, i.val ≠ 2 → i ≠ tx →
      flags2.got_rx_msg i = flags.got_rx_msg i ∧
        (canola_get_msg xp i.val (stale2 i) bus2).1 =
          (canola_get_msg xp i.val (stale i) bus).1 := by
    intro i h1 h3
    obtain ⟨e0, e1, e2, e3, e4⟩ := hr i h1 h3
    refine ⟨e0, ?_⟩
    rw [get_msg_fst, get_msg_fst, e1, e2, e3, e4]
    exact decode_stale _ _ _ _ _ _
  have hiff : pass_criterion xp msg_out flags2 bus2 stale2 tx ↔
      pass_criterion xp msg_out flags bus stale tx := by
    unfold pass_criterion
    rw [hd]
    constructor
    · rintro ⟨h, hall⟩
      refine ⟨h, fun i h1 h3 => ?_⟩
      obtain ⟨e0, e1⟩ := hg i h1 h3
      rw [← e0, ← e1]
      exact hall i h1 h3
    · rintro ⟨h, hall⟩
      refine ⟨h, fun i h1 h3 => ?_⟩
      obtain ⟨e0, e1⟩ := hg i h1 h3
      rw [e0, e1]
      exact hall i h1 h3
  by_cases hp : pass_criterion xp msg_out flags bus stale tx
  · obtain ⟨e1, e2⟩ := (key flags bus stale).1 hp
    obtain ⟨e3, e4⟩ := (key flags2 bus2 stale2).1 (hiff.mpr hp)
    rw [e1, e2, e3, e4]
    exact ⟨rfl, rfl⟩
  · obtain ⟨e1, e2⟩ := (key flags bus stale).2 hp
    obtain ⟨e3, e4⟩ := (key flags2 bus2 stale2).2 (fun h => hp (hiff.mp h))
    rw [e1, e2, e3, e4]
    exact ⟨rfl, rfl⟩

/-- A round that finds the tx-done flag of device 0 and the rx-valid flag of device 1 only:
device 3 has not received, the round is counted as failed. -/
theorem C16_round_pass_criterion_witness :
    (sequence_round xp_sample msg_out_0 flags_sample
        (bus_carry xp_sample 0 1 (canola_send_msg xp_sample 0 msg_out_0 bus_reset))
        stale_sample sequence_counters_init).1.success_count = 0 ∧
      (sequence_round xp_sample msg_out_0 flags_sample
        (bus_carry xp_sample 0 1 (canola_send_msg xp_sample 0 msg_out_0 bus_reset))
        stale_sample sequence_counters_init).1.fail_count = 1 :=
  (C16_round_pass_criterion xp_sample msg_out_0 flags_sample
    (bus_carry xp_sample 0 1 (canola_send_msg xp_sample 0 msg_out_0 bus_reset))
    stale_sample sequence_counters_init 0 rfl).2.1
    (fun h => (h.2 3 (by decide) (by decide)).1 (by decide))

/-- C17: at the end of every round, whatever its outcome, the tx-done and rx-valid flags of
all four devices are 0 and the GPIO flag is as it was; a following round that finds the
flags as the clearing left them counts a transmit failure and a failed round. -/
theorem C17_flags_cleared (xp : xparameters) (msg_out : can_msg_t) (flags : irq_flags)
    (bus : Bus) (stale : Fin 4 → can_msg_t) (c : sequence_counters) :
    (∀ i : Fin 4,
        (sequence_round xp msg_out flags bus stale c).2.1.got_tx_done i = 0 ∧
          (sequence_round xp msg_out flags bus stale c).2.1.got_rx_msg i = 0) ∧
      (sequence_round xp msg_out flags bus stale c).2.1.got_gpio_event = flags.got_gpio_event ∧
      (∀ (msg2 : can_msg_t) (bus2 : Bus) (stale2 : Fin 4 → can_msg_t) (c2 : sequence_counters),
        (sequence_round xp msg2 (sequence_round xp msg_out flags bus stale c).2.1 bus2
            stale2 c2).1.tx_not_done_count = u32 (c2.tx_not_done_count + 1) ∧
          (sequence_round xp msg2 (sequence_round xp msg_out flags bus stale c).2.1 bus2
            stale2 c2).1.fail_count = u32 (c2.fail_count + 1)) := by
  rw [(sequence_round_spec xp msg_out flags bus stale c).2.2.1]
  refine ⟨fun i => ⟨clear_irq_flags_tx _ i, clear_irq_flags_rx _ i⟩, rfl, ?_⟩
  intro msg2 bus2 stale2 c2
  have h0 : ¬ flag_read (clear_irq_flags flags).got_tx_done c2.can_ctrl_num = 1 := by
    unfold flag_read
    split_ifs
    · rw [clear_irq_flags_tx]
      decide
    · decide
  obtain ⟨_, _, _, _, _, a5, _, a7, _⟩ :=
    sequence_round_spec xp msg2 (clear_irq_flags flags) bus2 stale2 c2
  refine ⟨(a5 h0).2, (a7 ?_).2⟩
  intro hp
  exact h0 hp.1

/-- C18: tally invariant. Every round increments exactly one of `success_count` and
`fail_count` and exactly one of `tx_done_count` and `tx_not_done_count` (an increment
modulo `2 ^ 32` never leaves the value as it was); after the rounds, started from the initial
values, `success_count + fail_count` and `tx_done_count + tx_not_done_count` are the number
of rounds modulo `2 ^ 32`, and `rx_msg_ok_count + rx_msg_not_ok_count` is at most twice the
number of rounds. -/
theorem C18_tally (xp : xparameters) (r : round_input) (c : sequence_counters)
    (inputs : List round_input) :
    (((sequence_round xp r.msg_out r.flags r.bus r.stale c).1.success_count =
            u32 (c.success_count + 1) ∧
          (sequence_round xp r.msg_out r.flags r.bus r.stale c).1.fail_count = c.fail_count) ∨
        ((sequence_round xp r.msg_out r.flags r.bus r.stale c).1.success_count = c.success_count ∧
          (sequence_round xp r.msg_out r.flags r.bus r.stale c).1.fail_count =
            u32 (c.fail_count + 1))) ∧
      (((sequence_round xp r.msg_out r.flags r.bus r.stale c).1.tx_done_count =
            u32 (c.tx_done_count + 1) ∧
          (sequence_round xp r.msg_out r.flags r.bus r.stale c).1.tx_not_done_count =
            c.tx_not_done_count) ∨
        ((sequence_round xp r.msg_out r.flags r.bus r.stale c).1.tx_done_count = c.tx_done_count ∧
          (sequence_round xp r.msg_out r.flags r.bus r.stale c).1.tx_not_done_count =
            u32 (c.tx_not_done_count + 1))) ∧
      u32 (c.success_count + 1) ≠ c.success_count ∧
      u32 (c.fail_count + 1) ≠ c.fail_count ∧
      u32 (c.tx_done_count + 1) ≠ c.tx_done_count ∧
      u32 (c.tx_not_done_count + 1) ≠ c.tx_not_done_count ∧
      ((run_rounds xp inputs sequence_counters_init).success_count +
          (run_rounds xp inputs sequence_counters_init).fail_count) % 2 ^ 32 =
        inputs.length % 2 ^ 32 ∧
      ((run_rounds xp inputs sequence_counters_init).tx_done_count +
          (run_rounds xp inputs sequence_counters_init).tx_not_done_count) % 2 ^ 32 =
        inputs.length % 2 ^ 32 ∧
      (run_rounds xp inputs sequence_counters_init).rx_msg_ok_count +
          (run_rounds xp inputs sequence_counters_init).rx_msg_not_ok_count ≤
        2 * inputs.length := by
  obtain ⟨_, _, _, _, a4, a5, a6, a7, _⟩ := sequence_round_spec xp r.msg_out r.flags r.bus r.stale c
  have h0 : tally_invariant sequence_counters_init 0 := by
    unfold tally_invariant sequence_counters_init
    simp
  have hinv := run_rounds_invariant xp inputs sequence_counters_init 0 h0
  rw [Nat.zero_add] at hinv
  obtain ⟨_, i1, i2, i3⟩ := hinv
  refine ⟨?_, ?_, u32_succ_ne _, u32_succ_ne _, u32_succ_ne _, u32_succ_ne _, i1, i2, i3⟩
  · by_cases hp : round_passes xp r.msg_out r.flags r.bus r.stale c.can_ctrl_num
    · exact Or.inl (a6 hp)
    · exact Or.inr (a7 hp)
  · by_cases hp : flag_read r.flags.got_tx_done c.can_ctrl_num = 1
    · exact Or.inl (a4 hp)
    · exact Or.inr (a5 hp)

/-- C19: loopback soundness. Every frame `canola_generate_rand_msg` returns, whatever the
`rand()` values and whatever bytes the local held before, has `arb_id_a <= 2047`,
`arb_id_b <= 262143` and `data_length <= 8`, and compares equal to the frame
`canola_get_msg` decodes from the four words `canola_send_msg` writes for it. -/
theorem C19_loopback (xp : xparameters) (rand : Nat → Nat) (msg_out stale : can_msg_t)
    (tx rx : Nat) (bus0 bus : Bus) (hinit : ∀ i : Fin 8, msg_out.payload i < 2 ^ 8)
    (h_id : bus.mem (canola_get_base_addr xp rx + 0x6C) =
      (canola_send_msg xp tx (canola_generate_rand_msg rand msg_out) bus0).mem
        (canola_get_base_addr xp tx + 0x5C))
    (h_p0 : bus.mem (canola_get_base_addr xp rx + 0x74) =
      (canola_send_msg xp tx (canola_generate_rand_msg rand msg_out) bus0).mem
        (canola_get_base_addr xp tx + 0x64))
    (h_p1 : bus.mem (canola_get_base_addr xp rx + 0x78) =
      (canola_send_msg xp tx (canola_generate_rand_msg rand msg_out) bus0).mem
        (canola_get_base_addr xp tx + 0x68))
    (h_len : bus.mem (canola_get_base_addr xp rx + 0x70) =
      (canola_send_msg xp tx (canola_generate_rand_msg rand msg_out) bus0).mem
        (canola_get_base_addr xp tx + 0x60)) :
    (canola_generate_rand_msg rand msg_out).arb_id_a ≤ 2047 ∧
      (canola_generate_rand_msg rand msg_out).arb_id_b ≤ 262143 ∧
      (canola_generate_rand_msg rand msg_out).data_length ≤ 8 ∧
      (canola_compare_messages (canola_generate_rand_msg rand msg_out)
        (canola_get_msg xp rx stale bus).1).1 = true := by
  obtain ⟨ea, eb, el⟩ := generate_fields rand msg_out
  have ha : (canola_generate_rand_msg rand msg_out).arb_id_a < 2 ^ 11 := by
    rw [ea]
    omega
  have hb : (canola_generate_rand_msg rand msg_out).arb_id_b < 2 ^ 18 := by
    rw [eb]
    omega
  have hl : (canola_generate_rand_msg rand msg_out).data_length ≤ 8 := by
    rw [el]
    omega
  have hp : ∀ i : Fin 8, (canola_generate_rand_msg rand msg_out).payload i < 2 ^ 8 := by
    intro i
    rw [generate_payload]
    have := hinit i
    split_ifs <;> omega
  refine ⟨by omega, by omega, hl, ?_⟩
  rw [get_msg_fst, h_id, h_p0, h_p1, h_len, send_mem_msg_id, send_mem_payload_0,
    send_mem_payload_1, send_mem_payload_length, decode_encode _ _ ha hb hl hp]
  exact compare_norm _

/-- A generated extended frame of length 3 whose bytes 3..7 are stale: sent on device 1 and
received on device 3 it passes the comparison. -/
theorem C19_loopback_witness :
    (canola_compare_messages (canola_generate_rand_msg rand_sample msg_stale)
      (canola_get_msg xp_sample 3 msg_stale
        (bus_carry xp_sample 1 3
          (canola_send_msg xp_sample 1 (canola_generate_rand_msg rand_sample msg_stale)
            bus_reset))).1).1 = true ∧
      (canola_generate_rand_msg rand_sample msg_stale).payload 7 = 0xFF ∧
      (canola_generate_rand_msg rand_sample msg_stale).data_length = 3 :=
  ⟨(C19_loopback xp_sample rand_sample msg_stale msg_stale 1 3 bus_reset
    (bus_carry xp_sample 1 3
      (canola_send_msg xp_sample 1 (canola_generate_rand_msg rand_sample msg_stale) bus_reset))
    (by decide) (by decide) (by decide) (by decide) (by decide)).2.2.2, by decide, by decide⟩

/-- C20: the flag returned by `canola_compare_messages` is reflexive, symmetric and
transitive on frames. -/
theorem C20_compare_equivalence (a b c : can_msg_t) :
    (canola_compare_messages a a).1 = true ∧
      (canola_compare_messages a b).1 = (canola_compare_messages b a).1 ∧
      ((canola_compare_messages a b).1 = true → (canola_compare_messages b c).1 = true →
        (canola_compare_messages a c).1 = true) := by
  have sym : ∀ x y : can_msg_t, (canola_compare_messages x y).1 = true →
      (canola_compare_messages y x).1 = true := by
    intro x y h
    rw [compare_true_iff] at h ⊢
    obtain ⟨h1, h2, h3, h4, h5, h6⟩ := h
    refine ⟨h1.symm, h2.symm, fun h => (h3 (h2 ▸ h)).symm, h4.symm, h5.symm,
      fun hr i hi => (h6 (h4 ▸ hr) i (h5 ▸ hi)).symm⟩
  refine ⟨?_, ?_, ?_⟩
  · rw [compare_true_iff]
    exact ⟨rfl, rfl, fun _ => rfl, rfl, rfl, fun _ _ _ => rfl⟩
  · cases hab : (canola_compare_messages a b).1
    · cases hba : (canola_compare_messages b a).1
      · rfl
      · rw [sym b a hba] at hab
        exact absurd hab (by decide)
    · exact (sym a b hab).symm
  · intro hab hbc
    rw [compare_true_iff] at hab hbc ⊢
    obtain ⟨h1, h2, h3, h4, h5, h6⟩ := hab
    obtain ⟨g1, g2, g3, g4, g5, g6⟩ := hbc
    refine ⟨h1.trans g1, h2.trans g2, fun h => (h3 h).trans (g3 (h2 ▸ h)), h4.trans g4,
      h5.trans g5, fun hr i hi => (h6 hr i hi).trans (g6 (h4 ▸ hr) i (h5 ▸ hi))⟩

/-- C21: for a device number of 4 or more `canola_get_base_addr` returns 0, a plain address
like any other, and the driver functions access the bare register offsets: `canola_init`
writes 9 to address 0x30, `canola_send_msg` writes to 0x5C, 0x64, 0x68, 0x60 and 0x04,
`canola_get_msg` reads 0x6C, 0x70, 0x74 and 0x78 and decodes what it finds there, and
`canola_is_busy` reads 0x00. -/
theorem C21_base_addr_out_of_range (xp : xparameters) (id : Nat) (msg stale : can_msg_t)
    (bus : Bus) (h : 4 ≤ id) :
    canola_get_base_addr xp id = 0 ∧
      (canola_init xp id bus).log = bus.log ++ [BusOp.wr 0x30 9] ∧
      (canola_send_msg xp id msg bus).log =
        bus.log ++
          [BusOp.wr 0x5C (canola_tx_msg_id_reg msg),
            BusOp.wr 0x64 (canola_tx_payload_0_reg msg),
            BusOp.wr 0x68 (canola_tx_payload_1_reg msg),
            BusOp.wr 0x60 msg.data_length,
            BusOp.wr 0x04 1] ∧
      (canola_get_msg xp id stale bus).2.log =
        bus.log ++ [BusOp.rd 0x6C, BusOp.rd 0x70, BusOp.rd 0x74, BusOp.rd 0x78] ∧
      (canola_get_msg xp id stale bus).1 =
        canola_get_msg_decode stale (bus.mem 0x6C) (bus.mem 0x70) (bus.mem 0x74)
          (bus.mem 0x78) ∧
      (canola_is_busy xp id bus).2.log = bus.log ++ [BusOp.rd 0x00] := by
  have hb := get_base_addr_out_of_range xp id h
  refine ⟨hb, ?_, ?_, ?_, ?_, ?_⟩
  · simp [canola_init, Xil_Out32, hb, BTL_TIME_QUANTA_CLOCK_SCALE_OFFSET]
  · rw [send_msg_log, hb]
  · rw [get_msg_log, hb]
  · rw [get_msg_fst, hb]
  · simp [canola_is_busy, Xil_In32, hb, STATUS_OFFSET]

/-- A device number of 4: the accesses of the driver go to the bare offsets. -/
theorem C21_base_addr_out_of_range_witness :
    canola_get_base_addr xp_sample 4 = 0 ∧
      (canola_init xp_sample 4 bus_reset).log = [BusOp.wr 0x30 9] ∧
      (canola_get_msg xp_sample 4 msg_stale bus_reset).2.log =
        [BusOp.rd 0x6C, BusOp.rd 0x70, BusOp.rd 0x74, BusOp.rd 0x78] ∧
      (canola_is_busy xp_sample 4 bus_reset).2.log = [BusOp.rd 0x00] :=
  have h := C21_base_addr_out_of_range xp_sample 4 msg_out_0 msg_stale bus_reset (by decide)
  ⟨h.1, h.2.1, h.2.2.2.1, h.2.2.2.2.2⟩

/-- C22: frame condition of the notification callbacks. For every flag table and every
device argument, `IrqRxValidHandler` leaves every entry of `got_rx_msg` other than the one of
its device, the whole of `got_tx_done` and `got_gpio_event` as they were, and
`IrqTxDoneHandler` does the same with the two arrays exchanged; for an argument of 4 or more
the table is unchanged. -/
theorem C22_callback_frame (flags : irq_flags) (data : Nat) :
    (∀ j : Fin 4, j.val ≠ data →
        (IrqRxValidHandler data flags).got_rx_msg j = flags.got_rx_msg j) ∧
      (IrqRxValidHandler data flags).got_tx_done = flags.got_tx_done ∧
      (IrqRxValidHandler data flags).got_gpio_event = flags.got_gpio_event ∧
      (∀ j : Fin 4, j.val ≠ data →
        (IrqTxDoneHandler data flags).got_tx_done j = flags.got_tx_done j) ∧
      (IrqTxDoneHandler data flags).got_rx_msg = flags.got_rx_msg ∧
      (IrqTxDoneHandler data flags).got_gpio_event = flags.got_gpio_event ∧
      (4 ≤ data → IrqRxValidHandler data flags = flags ∧ IrqTxDoneHandler data flags = flags) := by
  unfold IrqRxValidHandler IrqTxDoneHandler
  by_cases h : data < 4
  · rw [dif_pos h, dif_pos h]
    refine ⟨fun j hj => ?_, rfl, rfl, fun j hj => ?_, rfl, rfl, fun h4 => ?_⟩
    · exact Function.update_noteq (fun e => hj (congrArg Fin.val e)) _ _
    · exact Function.update_noteq (fun e => hj (congrArg Fin.val e)) _ _
    · omega
  · rw [dif_neg h, dif_neg h]
    exact ⟨fun _ _ => rfl, rfl, rfl, fun _ _ => rfl, rfl, rfl, fun _ => ⟨rfl, rfl⟩⟩

/-- C23: the local `rx_msg_count` starts at 0, no round changes it, and after any number of
rounds it is 0 and so is the value printed for it in the final tally, the third of the seven
values printed. -/
theorem C23_rx_msg_count_zero (xp : xparameters) (inputs : List round_input)
    (msg_out : can_msg_t) (flags : irq_flags) (bus : Bus) (stale : Fin 4 → can_msg_t)
    (c : sequence_counters) :
    sequence_counters_init.rx_msg_count = 0 ∧
      (sequence_round xp msg_out flags bus stale c).1.rx_msg_count = c.rx_msg_count ∧
      (run_rounds xp inputs sequence_counters_init).rx_msg_count = 0 ∧
      (sequence_report (run_rounds xp inputs sequence_counters_init)).get? 2 = some 0 := by
  refine ⟨rfl, (sequence_round_spec xp msg_out flags bus stale c).2.1, ?_, ?_⟩
  · rw [run_rounds_rx_msg_count]
    rfl
  · show some (run_rounds xp inputs sequence_counters_init).rx_msg_count = some 0
    rw [run_rounds_rx_msg_count]
    rfl

/-- One round in which the devices 1 and 3 both receive the frame sent by device 0: the two
frames are counted in `rx_msg_ok_count` and `rx_msg_count` is still 0. -/
theorem C23_rx_msg_count_zero_witness :
    (run_rounds xp_sample [round_input_ok] sequence_counters_init).rx_msg_count = 0 ∧
      (run_rounds xp_sample [round_input_ok] sequence_counters_init).rx_msg_ok_count = 2 ∧
      (run_rounds xp_sample [round_input_ok] sequence_counters_init).success_count = 1 :=
  ⟨(C23_rx_msg_count_zero xp_sample [round_input_ok] msg_out_0 flags_sample bus_reset
    stale_sample sequence_counters_init).2.2.1, by decide, by decide⟩

end Canola
